import Mathlib

/-!
Verification of the travel-itinerary generation repository.

This file gives a shallow embedding, in Lean 4, of the deterministic parts of
the repository (the request-parser field collector, the activities-planner
itinerary synthesis, the accommodation-suggester budget pipeline and the
workflow orchestrator), and proves or refutes the specified claims about them.

Python strings are modelled as lists of characters; Python ints as Int/Nat;
Python floats as exact rationals (the numeric comparisons settled here are far
from any rounding boundary); Python exceptions as Option/Except values.
Network collaborators (search client, language model) are modelled as abstract
environments supplying either a parsed result or a failure marker, exactly as
the code consumes them.
-/

namespace Py

/-- Characters treated as whitespace by Python str.strip and str.split. -/
def isWS (c : Char) : Bool :=
  c = ' ' ∨ c = '\t' ∨ c = '\n' ∨ c = '\r' ∨ c = '\x0b' ∨ c = '\x0c'

/-- Models str.strip: drop whitespace from both ends. -/
def strip (l : List Char) : List Char :=
  ((l.dropWhile isWS).reverse.dropWhile isWS).reverse

/-- Models str.replace(c, "") for a single-character pattern: remove every
occurrence of the character. -/
def removeChar (c : Char) (l : List Char) : List Char :=
  l.filter (fun x => x ≠ c)

/-- Models str.split(sep) for a single-character separator (keeps empty
fields, like Python). -/
def splitOnChar (sep : Char) : List Char → List (List Char)
  | [] => [[]]
  | c :: cs =>
    if c = sep then [] :: splitOnChar sep cs
    else
      match splitOnChar sep cs with
      | [] => [[c]]
      | p :: ps => (c :: p) :: ps

/-- Models str.split() with no argument: split on whitespace runs, discarding
empty fields. The accumulator holds the current field reversed. -/
def splitWSAux : List Char → List Char → List (List Char)
  | [], acc => if acc.isEmpty then [] else [acc.reverse]
  | c :: cs, acc =>
    if isWS c then
      if acc.isEmpty then splitWSAux cs [] else acc.reverse :: splitWSAux cs []
    else splitWSAux cs (c :: acc)

/-- Models str.split() with no argument. -/
def splitWS (l : List Char) : List (List Char) := splitWSAux l []

/-- Numeric value of a decimal digit character. -/
def digitVal (c : Char) : Nat := c.toNat - 48

/-- Value of a most-significant-digit-first digit string. -/
def parseDigitsMSD (cs : List Char) : Nat :=
  cs.foldl (fun a c => 10 * a + digitVal c) 0

/-- Parse a nonempty all-digit string to a natural number; none otherwise. -/
def parseDigits (cs : List Char) : Option Nat :=
  if cs ≠ [] ∧ cs.all Char.isDigit then some (parseDigitsMSD cs) else none

/-- Models Python int(s): strip whitespace, optional sign, then a nonempty
digit string (underscore grouping and other exotic forms are not modelled). -/
def pyInt (cs : List Char) : Option Int :=
  match strip cs with
  | '+' :: rest => (parseDigits rest).map (fun n => (n : Int))
  | '-' :: rest => (parseDigits rest).map (fun n => -(n : Int))
  | rest => (parseDigits rest).map (fun n => (n : Int))

/-- Fractional part value: digits after the decimal point. -/
def parseFracVal (cs : List Char) : ℚ :=
  (parseDigitsMSD cs : ℚ) / (10 : ℚ) ^ cs.length

/-- Parse an unsigned decimal literal: digits, optionally with one decimal
point; at least one digit overall. -/
def parseUnsignedFloat (cs : List Char) : Option ℚ :=
  match splitOnChar '.' cs with
  | [a] => (parseDigits a).map (fun n => (n : ℚ))
  | [a, b] =>
    if a = [] then
      (parseDigits b).map (fun _ => parseFracVal b)
    else if b = [] then
      (parseDigits a).map (fun n => (n : ℚ))
    else
      match parseDigits a, parseDigits b with
      | some n, some _ => some ((n : ℚ) + parseFracVal b)
      | _, _ => none
  | _ => none

/-- Models Python float(s): strip whitespace, optional sign, decimal literal
(exponents, inf/nan and underscores are not modelled). -/
def pyFloat (cs : List Char) : Option ℚ :=
  match strip cs with
  | '+' :: rest => parseUnsignedFloat rest
  | '-' :: rest => (parseUnsignedFloat rest).map (fun q => -q)
  | rest => parseUnsignedFloat rest

/-- Character for a decimal digit. -/
def dChar (d : Nat) : Char := Char.ofNat (48 + d)

/-- Digit string (most significant first) of a natural number, as Python
str(n) / repr(n) produces it. -/
def natStr (n : Nat) : List Char :=
  if n = 0 then ['0'] else ((Nat.digits 10 n).map dChar).reverse

/-- Insert a comma before a digit whenever a positive multiple of three
digits has already been emitted; operates on the least-significant-first
digit list. -/
def commaGroupRev : List Char → Nat → List Char
  | [], _ => []
  | c :: cs, k =>
    if 0 < k ∧ k % 3 = 0 then ',' :: c :: commaGroupRev cs (k + 1)
    else c :: commaGroupRev cs (k + 1)

/-- Models Python format(n, ",") (the "{:,}" format): thousands separators
every three digits from the right. -/
def commaFmt (n : Nat) : List Char :=
  (commaGroupRev (natStr n).reverse 0).reverse

/-- String form of an Int, as Python str(i) produces it. -/
def intStr (i : Int) : List Char :=
  if i < 0 then '-' :: natStr i.natAbs else natStr i.natAbs

end Py

namespace ActivitiesPlanner

/-- Result of the try-body of ActivitiesPlanner._extract_cost_range: strip the
rupee sign and commas, strip whitespace; with a dash, split and parse the two
parts (a tuple unpack of anything but exactly two parts raises); without a
dash, parse a single int. none models a raised exception. -/
def extractCostRangeCore (cs : List Char) : Option (Int × Int) :=
  let clean := Py.strip (Py.removeChar ',' (Py.removeChar '₹' cs))
  if clean.contains '-' then
    match Py.splitOnChar '-' clean with
    | [a, b] =>
      match Py.pyInt (Py.strip a), Py.pyInt (Py.strip b) with
      | some x, some y => some (x, y)
      | _, _ => none
    | _ => none
  else
    (Py.pyInt clean).map (fun x => (x, x))

/-- Models ActivitiesPlanner._extract_cost_range: the bare except returns the
fixed default range (500, 1000). -/
def extractCostRange (cs : List Char) : Int × Int :=
  (extractCostRangeCore cs).getD (500, 1000)

/-- Canonical cost-string format used by _create_daily_itineraries:
daily_cost = "₹" followed by the comma-grouped min, a dash, and the
comma-grouped max. -/
def formatCostPair (m M : Nat) : List Char :=
  '₹' :: (Py.commaFmt m ++ '-' :: Py.commaFmt M)

end ActivitiesPlanner

namespace Py

theorem dropWhileEqSelf (p : Char → Bool) (l : List Char) (h : ∀ c ∈ l, p c = false) :
    l.dropWhile p = l := by
  cases l with
  | nil => rfl
  | cons c cs => simp [List.dropWhile_cons, h c (List.mem_cons_self c cs)]

theorem stripEqSelf (l : List Char) (h : ∀ c ∈ l, isWS c = false) : strip l = l := by
  unfold strip
  rw [dropWhileEqSelf _ _ h,
    dropWhileEqSelf _ _ (fun c hc => h c (List.mem_reverse.mp hc)),
    List.reverse_reverse]

theorem isDigitFacts (c : Char) (h : c.isDigit = true) :
    c ≠ '₹' ∧ c ≠ ',' ∧ c ≠ '-' ∧ c ≠ '+' ∧ isWS c = false := by
  unfold Char.isDigit at h
  simp only [Bool.and_eq_true, decide_eq_true_eq] at h
  refine ⟨?_, ?_, ?_, ?_, ?_⟩
  · rintro rfl; exact absurd h.2 (by decide)
  · rintro rfl; exact absurd h.1 (by decide)
  · rintro rfl; exact absurd h.1 (by decide)
  · rintro rfl; exact absurd h.1 (by decide)
  · unfold isWS
    simp only [decide_eq_false_iff_not]
    rintro (rfl | rfl | rfl | rfl | rfl | rfl) <;>
      exact absurd h.1 (by decide)

theorem natStrDigits (n : Nat) : ∀ c ∈ natStr n, c.isDigit = true := by
  intro c hc
  unfold natStr at hc
  by_cases hn : n = 0
  · rw [if_pos hn] at hc
    simp only [List.mem_singleton] at hc
    subst hc; decide
  · rw [if_neg hn, List.mem_reverse, List.mem_map] at hc
    obtain ⟨d, hd, rfl⟩ := hc
    have hd10 : d < 10 := Nat.digits_lt_base (by norm_num) hd
    interval_cases d <;> decide

theorem digitValDChar (d : Nat) (hd : d < 10) : digitVal (dChar d) = d := by
  interval_cases d <;> decide

theorem natStrNeNil (n : Nat) : natStr n ≠ [] := by
  unfold natStr
  by_cases hn : n = 0
  · rw [if_pos hn]; simp
  · rw [if_neg hn]
    simp only [ne_eq, List.reverse_eq_nil_iff, List.map_eq_nil_iff]
    exact Nat.digits_ne_nil_iff_ne_zero.mpr hn

theorem foldlParseDigits (L : List Nat) (h : ∀ d ∈ L, d < 10) (acc : Nat) :
    List.foldl (fun a c => 10 * a + digitVal c) acc ((L.map dChar).reverse) =
      acc * 10 ^ L.length + Nat.ofDigits 10 L := by
  induction L generalizing acc with
  | nil => simp [Nat.ofDigits]
  | cons d t ih =>
    have hd : d < 10 := h d (List.mem_cons_self d t)
    rw [List.map_cons, List.reverse_cons, List.foldl_append,
      ih (fun x hx => h x (List.mem_cons_of_mem _ hx)) acc]
    simp only [List.foldl_cons, List.foldl_nil, digitValDChar d hd,
      Nat.ofDigits_cons, List.length_cons, Nat.cast_id]
    ring

theorem parseDigitsMSDNatStr (n : Nat) : parseDigitsMSD (natStr n) = n := by
  unfold parseDigitsMSD natStr
  by_cases hn : n = 0
  · rw [if_pos hn]; subst hn; decide
  · rw [if_neg hn,
      foldlParseDigits _ (fun d hd => Nat.digits_lt_base (by norm_num) hd) 0]
    simp [Nat.ofDigits_digits]

theorem parseDigitsNatStr (n : Nat) : parseDigits (natStr n) = some n := by
  unfold parseDigits
  rw [if_pos ⟨natStrNeNil n, List.all_eq_true.mpr (natStrDigits n)⟩,
    parseDigitsMSDNatStr]

theorem pyIntOfDigitString (cs : List Char) (h1 : cs ≠ [])
    (h2 : ∀ c ∈ cs, c.isDigit = true) :
    pyInt cs = some ((parseDigitsMSD cs : Int)) := by
  have hstrip : strip cs = cs :=
    stripEqSelf cs (fun c hc => (isDigitFacts c (h2 c hc)).2.2.2.2)
  obtain ⟨c, rest, rfl⟩ := List.exists_cons_of_ne_nil h1
  have hc := h2 c (List.mem_cons_self c rest)
  have hplus : c ≠ '+' := (isDigitFacts c hc).2.2.2.1
  have hminus : c ≠ '-' := (isDigitFacts c hc).2.2.1
  unfold pyInt
  rw [hstrip]
  have hparse : parseDigits (c :: rest) = some (parseDigitsMSD (c :: rest)) := by
    unfold parseDigits
    rw [if_pos ⟨List.cons_ne_nil c rest, List.all_eq_true.mpr h2⟩]
  split
  · rename_i r heq
    injection heq with h1 _
    exact absurd h1 hplus
  · rename_i r heq
    injection heq with h1 _
    exact absurd h1 hminus
  · rw [hparse]; rfl

theorem pyIntNatStr (n : Nat) : pyInt (natStr n) = some (n : Int) := by
  rw [pyIntOfDigitString (natStr n) (natStrNeNil n) (natStrDigits n),
    parseDigitsMSDNatStr]

theorem memCommaGroupRev (c : Char) (l : List Char) (k : Nat)
    (h : c ∈ commaGroupRev l k) : c ∈ l ∨ c = ',' := by
  induction l generalizing k with
  | nil => simp [commaGroupRev] at h
  | cons x xs ih =>
    unfold commaGroupRev at h
    split at h <;> simp only [List.mem_cons] at h
    · rcases h with rfl | rfl | h
      · exact Or.inr rfl
      · exact Or.inl (List.mem_cons_self _ _)
      · rcases ih (k + 1) h with hx | hx
        · exact Or.inl (List.mem_cons_of_mem _ hx)
        · exact Or.inr hx
    · rcases h with rfl | h
      · exact Or.inl (List.mem_cons_self _ _)
      · rcases ih (k + 1) h with hx | hx
        · exact Or.inl (List.mem_cons_of_mem _ hx)
        · exact Or.inr hx

theorem removeCharCommaGroupRev (l : List Char) (k : Nat) :
    removeChar ',' (commaGroupRev l k) = removeChar ',' l := by
  induction l generalizing k with
  | nil => rfl
  | cons x xs ih =>
    unfold commaGroupRev removeChar
    split <;> simp only [List.filter_cons]
    · rw [if_neg (by simp)]
      split <;> unfold removeChar at ih <;> rw [ih (k + 1)]
    · split <;> unfold removeChar at ih <;> rw [ih (k + 1)]

theorem removeCharOfNotMem (x : Char) (l : List Char) (h : ∀ c ∈ l, c ≠ x) :
    removeChar x l = l :=
  List.filter_eq_self.mpr (fun c hc => by simp [h c hc])

theorem removeCharCommaFmt (n : Nat) : removeChar ',' (commaFmt n) = natStr n := by
  unfold commaFmt removeChar
  rw [List.filter_reverse]
  show (removeChar ',' (commaGroupRev (natStr n).reverse 0)).reverse = _
  rw [removeCharCommaGroupRev,
    removeCharOfNotMem ',' (natStr n).reverse
      (fun c hc => (isDigitFacts c (natStrDigits n c (List.mem_reverse.mp hc))).2.1),
    List.reverse_reverse]

theorem memCommaFmt (c : Char) (n : Nat) (h : c ∈ commaFmt n) :
    c.isDigit = true ∨ c = ',' := by
  unfold commaFmt at h
  rcases memCommaGroupRev c _ 0 (List.mem_reverse.mp h) with hx | hx
  · exact Or.inl (natStrDigits n c (List.mem_reverse.mp hx))
  · exact Or.inr hx

theorem splitOnCharOfNotMem (sep : Char) (a : List Char) (ha : sep ∉ a) :
    splitOnChar sep a = [a] := by
  induction a with
  | nil => rfl
  | cons c cs ih =>
    have hcs : ¬(c = sep) := fun h => ha (List.mem_cons.mpr (Or.inl h.symm))
    simp only [splitOnChar]
    rw [if_neg hcs, ih (fun h => ha (List.mem_cons_of_mem _ h))]

theorem splitOnCharAppendSep (sep : Char) (a b : List Char) (ha : sep ∉ a) :
    splitOnChar sep (a ++ sep :: b) = a :: splitOnChar sep b := by
  induction a with
  | nil =>
    show splitOnChar sep (sep :: b) = [] :: splitOnChar sep b
    simp [splitOnChar]
  | cons c cs ih =>
    have hcs : ¬(c = sep) := fun h => ha (List.mem_cons.mpr (Or.inl h.symm))
    show splitOnChar sep (c :: (cs ++ sep :: b)) = _
    simp only [splitOnChar]
    rw [if_neg hcs, ih (fun h => ha (List.mem_cons_of_mem _ h))]

end Py

namespace ActivitiesPlanner

theorem memCommaFmtNeRupee (n : Nat) : ∀ c ∈ Py.commaFmt n, c ≠ '₹' := by
  intro c hc
  rcases Py.memCommaFmt c n hc with hd | rfl
  · exact (Py.isDigitFacts c hd).1
  · decide

theorem memNatStrNeDash (n : Nat) : '-' ∉ Py.natStr n := by
  intro h
  exact absurd rfl (Py.isDigitFacts '-' (Py.natStrDigits n '-' h)).2.2.1

theorem cleanFormatCostPair (m M : Nat) :
    Py.strip (Py.removeChar ',' (Py.removeChar '₹' (formatCostPair m M))) =
      Py.natStr m ++ '-' :: Py.natStr M := by
  have h1 : Py.removeChar '₹' (formatCostPair m M) =
      Py.commaFmt m ++ '-' :: Py.commaFmt M := by
    unfold formatCostPair Py.removeChar
    rw [List.filter_cons]
    rw [if_neg (by simp), List.filter_append, List.filter_cons]
    rw [if_pos (by decide)]
    show Py.removeChar '₹' (Py.commaFmt m) ++ '-' :: Py.removeChar '₹' (Py.commaFmt M) = _
    rw [Py.removeCharOfNotMem '₹' _ (memCommaFmtNeRupee m),
      Py.removeCharOfNotMem '₹' _ (memCommaFmtNeRupee M)]
  have h2 : Py.removeChar ',' (Py.commaFmt m ++ '-' :: Py.commaFmt M) =
      Py.natStr m ++ '-' :: Py.natStr M := by
    unfold Py.removeChar
    rw [List.filter_append, List.filter_cons, if_pos (by decide)]
    show Py.removeChar ',' (Py.commaFmt m) ++ '-' :: Py.removeChar ',' (Py.commaFmt M) = _
    rw [Py.removeCharCommaFmt m, Py.removeCharCommaFmt M]
  rw [h1, h2]
  refine Py.stripEqSelf _ ?_
  intro c hc
  rcases List.mem_append.mp hc with hx | hx
  · exact (Py.isDigitFacts c (Py.natStrDigits m c hx)).2.2.2.2
  · rcases List.mem_cons.mp hx with rfl | hx
    · decide
    · exact (Py.isDigitFacts c (Py.natStrDigits M c hx)).2.2.2.2

theorem extractCostRangeCoreFormat (m M : Nat) :
    extractCostRangeCore (formatCostPair m M) = some ((m : Int), (M : Int)) := by
  unfold extractCostRangeCore
  rw [cleanFormatCostPair m M]
  rw [if_pos (by simp only [List.contains, List.elem_iff]; exact
    List.mem_append.mpr (Or.inr (List.mem_cons_self _ _)))]
  rw [Py.splitOnCharAppendSep '-' _ _ (memNatStrNeDash m),
    Py.splitOnCharOfNotMem '-' _ (memNatStrNeDash M)]
  have hm := Py.pyIntNatStr m
  have hM := Py.pyIntNatStr M
  have hsm : Py.strip (Py.natStr m) = Py.natStr m :=
    Py.stripEqSelf _ (fun c hc =>
      (Py.isDigitFacts c (Py.natStrDigits m c hc)).2.2.2.2)
  have hsM : Py.strip (Py.natStr M) = Py.natStr M :=
    Py.stripEqSelf _ (fun c hc =>
      (Py.isDigitFacts c (Py.natStrDigits M c hc)).2.2.2.2)
  simp only [hsm, hsM, hm, hM]

theorem extractCostRangeSingle (n : Nat) :
    extractCostRange ('₹' :: Py.commaFmt n) = ((n : Int), (n : Int)) := by
  unfold extractCostRange extractCostRangeCore
  have h1 : Py.removeChar '₹' ('₹' :: Py.commaFmt n) = Py.commaFmt n := by
    unfold Py.removeChar
    rw [List.filter_cons, if_neg (by simp)]
    exact Py.removeCharOfNotMem '₹' _ (memCommaFmtNeRupee n)
  have h2 : Py.strip (Py.removeChar ',' (Py.commaFmt n)) = Py.natStr n := by
    rw [Py.removeCharCommaFmt n]
    exact Py.stripEqSelf _ (fun c hc =>
      (Py.isDigitFacts c (Py.natStrDigits n c hc)).2.2.2.2)
  rw [h1, h2]
  rw [if_neg ?hcontains]
  case hcontains =>
    simp only [List.contains, Bool.eq_false_iff, ne_eq, List.elem_iff]
    exact memNatStrNeDash n
  rw [Py.pyIntNatStr n]
  rfl

end ActivitiesPlanner

/-- C8: cost-range parsing round-trips on its canonical output format: for
every pair of natural numbers, formatting as a rupee-prefixed comma-grouped
min-max string and re-parsing with _extract_cost_range yields exactly that
pair; a single comma-grouped number without a dash parses to (n, n); and any
string on which the parse attempt fails (the bare except branch) yields the
fixed fallback pair (500, 1000), as on the concrete input "free". -/
theorem claimC8costRangeRoundtrip :
    (∀ m M : Nat,
      ActivitiesPlanner.extractCostRange (ActivitiesPlanner.formatCostPair m M) =
        ((m : Int), (M : Int))) ∧
    (∀ n : Nat,
      ActivitiesPlanner.extractCostRange ('₹' :: Py.commaFmt n) =
        ((n : Int), (n : Int))) ∧
    (∀ cs : List Char, ActivitiesPlanner.extractCostRangeCore cs = none →
      ActivitiesPlanner.extractCostRange cs = (500, 1000)) ∧
    ActivitiesPlanner.extractCostRange "free".data = (500, 1000) := by
  refine ⟨?_, ActivitiesPlanner.extractCostRangeSingle, ?_, by decide⟩
  · intro m M
    unfold ActivitiesPlanner.extractCostRange
    rw [ActivitiesPlanner.extractCostRangeCoreFormat m M]
    rfl
  · intro cs h
    unfold ActivitiesPlanner.extractCostRange
    rw [h]
    rfl

/-- Witness for C8 at concrete inputs: the round trip at (1234, 5678), the
single number 750, and the failing input "free". -/
theorem claimC8costRangeRoundtripWitness :
    ActivitiesPlanner.extractCostRange (ActivitiesPlanner.formatCostPair 1234 5678) =
      (1234, 5678) ∧
    ActivitiesPlanner.extractCostRange ('₹' :: Py.commaFmt 750) = (750, 750) ∧
    ActivitiesPlanner.extractCostRange "free".data = (500, 1000) :=
  ⟨claimC8costRangeRoundtrip.1 1234 5678,
   claimC8costRangeRoundtrip.2.1 750,
   claimC8costRangeRoundtrip.2.2.2⟩

namespace Py

/-- Models str.upper() for the ASCII range (the currencies compared are
ASCII). -/
def upperStr (s : String) : String := String.mk (s.data.map Char.toUpper)

/-- Helper for str.title(): uppercase a character that follows a non-letter,
lowercase one that follows a letter. -/
def titleAux : List Char → Bool → List Char
  | [], _ => []
  | c :: cs, prevAlpha =>
    (if prevAlpha then c.toLower else c.toUpper) :: titleAux cs c.isAlpha

/-- Models str.title() for the ASCII range. -/
def titleStr (s : String) : String := String.mk (titleAux s.data false)

/-- Python truthiness of an optional string: None and the empty string are
falsy. -/
def truthyStr : Option String → Bool
  | none => false
  | some s => s ≠ ""

/-- Python truthiness of an optional number: None and zero are falsy. -/
def truthyNum : Option ℚ → Bool
  | none => false
  | some q => q ≠ 0

end Py

namespace RequestParser

/-- Models the AccommodationType enum of request_parser. -/
inductive AccommodationType
  | budget
  | midRange
  | luxury
deriving DecidableEq, Repr

/-- Models the Travelers dataclass. The total field is stored as given by the
model response, not recomputed. -/
structure Travelers where
  adults : Int
  children : Int
  total : Int
deriving DecidableEq, Repr

/-- Models the Budget dataclass of request_parser. -/
structure Budget where
  totalAmount : ℚ
  currency : String
  accommodationType : Option AccommodationType
deriving DecidableEq, Repr

/-- Models ConversationManager.collected_data (the mutable CoreTravelRequest
being filled in; the stored missing_fields and is_complete mirrors are
recomputed on every update and are modelled by the functions below). -/
structure ConvState where
  destination : Option String
  duration : Option ℚ
  travelers : Option Travelers
  budget : Option Budget
  needsDisambiguation : Option String
  parseError : Option String
deriving DecidableEq, Repr

/-- The empty collected state of a fresh ConversationManager. -/
def initialState : ConvState := ⟨none, none, none, none, none, none⟩

/-- The fixed list of known-ambiguous destinations. -/
def ambiguousDestinations : List String :=
  ["Paris", "Springfield", "Cambridge", "Alexandria", "Madrid",
   "Birmingham", "Richmond", "Salem", "Dover", "Chester"]

/-- Models ConversationManager.validate_duration: 1 <= duration <= 365. -/
def validateDuration (d : ℚ) : Bool := 1 ≤ d ∧ d ≤ 365

/-- Models ConversationManager.validate_budget: amount >= 1 (the configured
minimum). -/
def validateBudget (b : ℚ) : Bool := 1 ≤ b

/-- Models ConversationManager.check_destination_disambiguation: title-case
the stripped destination and test membership in the fixed list. -/
def checkDestinationDisambiguation (destination : String) : Option String :=
  let clean := Py.titleStr (String.mk (Py.strip destination.data))
  if clean ∈ ambiguousDestinations then
    some ("There are multiple cities named " ++ clean ++ ". Which country - " ++
      clean ++ ", France or another location? Please specify the country.")
  else none

/-- Models ConversationManager.determine_accommodation_type. The division
total_budget / (travelers_count * duration) has no guard, so a zero divisor
models a raised ZeroDivisionError (result none). The collected duration is
passed through unchecked by Python, hence the rational argument. -/
def determineAccommodationType (totalBudget : ℚ) (travelersCount : Int)
    (duration : ℚ) (currency : String) : Option AccommodationType :=
  if (travelersCount : ℚ) * duration = 0 then none
  else
    let bppd := totalBudget / ((travelersCount : ℚ) * duration)
    if Py.upperStr currency = "USD" then
      some (if bppd < 50 then .budget else if bppd ≤ 150 then .midRange else .luxury)
    else if Py.upperStr currency = "INR" then
      some (if bppd < 4000 then .budget else if bppd ≤ 12000 then .midRange else .luxury)
    else if Py.upperStr currency = "EUR" then
      some (if bppd < 45 then .budget else if bppd ≤ 135 then .midRange else .luxury)
    else
      some .midRange

/-- The budget object of a model response. -/
structure LLMBudget where
  totalAmount : ℚ
  currency : String
deriving DecidableEq, Repr

/-- Models the structured dictionary returned by the language model for one
turn (the fields _update_conversation_state reads). -/
structure LLMResponse where
  destination : Option String
  duration : Option ℚ
  travelers : Option Travelers
  budget : Option LLMBudget
  needsDisambiguation : Option String
  parseError : Option String
deriving DecidableEq, Repr

/-- Models ConversationManager.get_missing_fields. -/
def getMissingFields (st : ConvState) : List String :=
  (if Py.truthyStr st.destination then [] else ["destination"]) ++
  (if Py.truthyNum st.duration then [] else ["duration"]) ++
  (if st.travelers.isSome then [] else ["travelers"]) ++
  (if st.budget.isSome then [] else ["budget"])

/-- Models ConversationManager.is_complete: all four fields truthy, no
pending disambiguation, no pending parse error, nothing missing. -/
def isCompleteState (st : ConvState) : Bool :=
  Py.truthyStr st.destination ∧ Py.truthyNum st.duration ∧
  st.travelers.isSome ∧ st.budget.isSome ∧
  ¬ Py.truthyStr st.needsDisambiguation ∧ ¬ Py.truthyStr st.parseError ∧
  getMissingFields st = []

/-- First block of _update_conversation_state: the destination is merged only
when the response carries a truthy one and no disambiguation flag. -/
def mergeDestination (st : ConvState) (r : LLMResponse) : ConvState :=
  if Py.truthyStr r.destination ∧ ¬ Py.truthyStr r.needsDisambiguation then
    { st with destination := r.destination }
  else st

/-- Second block: a truthy duration is merged only when it passes
validate_duration. -/
def mergeDuration (st : ConvState) (r : LLMResponse) : ConvState :=
  match r.duration with
  | some d =>
    if d ≠ 0 then
      if validateDuration d then { st with duration := some d } else st
    else st
  | none => st

/-- Third block: a travelers object is merged unconditionally, field by
field. -/
def mergeTravelers (st : ConvState) (r : LLMResponse) : ConvState :=
  match r.travelers with
  | some t => { st with travelers := some ⟨t.adults, t.children, t.total⟩ }
  | none => st

/-- Accommodation-type derivation inside the budget block: it runs only when
travelers and a truthy duration were already collected; the outer none models
a ZeroDivisionError raised by determine_accommodation_type. -/
def deriveAccommodation (st : ConvState) (b : LLMBudget) :
    Option (Option AccommodationType) :=
  match st.travelers, st.duration with
  | some t, some d =>
    if Py.truthyNum st.duration then
      (determineAccommodationType b.totalAmount t.total d b.currency).map some
    else some none
  | _, _ => some none

/-- Fourth block: a budget is merged only when it passes validate_budget,
deriving the accommodation type when travelers and duration were already
collected (a zero divisor inside determine_accommodation_type raises a
ZeroDivisionError, modelled as none). -/
def mergeBudget (st : ConvState) (r : LLMResponse) : Option ConvState :=
  match r.budget with
  | some b =>
    if validateBudget b.totalAmount then
      match deriveAccommodation st b with
      | none => none
      | some a =>
        some { st with budget := some ⟨b.totalAmount, b.currency, a⟩ }
    else some st
  | none => some st

/-- Final block: both flags are overwritten from the response, and the stored
missing_fields / is_complete mirrors are recomputed (modelled by
getMissingFields / isCompleteState). -/
def setFlags (st : ConvState) (r : LLMResponse) : ConvState :=
  { st with needsDisambiguation := r.needsDisambiguation,
            parseError := r.parseError }

/-- Models RequestParserAgent._update_conversation_state: the four merge
blocks in source order, then the flag overwrite; none models an uncaught
exception escaping the method. -/
def updateConversationState (st : ConvState) (r : LLMResponse) : Option ConvState :=
  (mergeBudget (mergeTravelers (mergeDuration (mergeDestination st r) r) r) r).map
    (fun s => setFlags s r)

end RequestParser

namespace RequestParser

theorem mergeDurationFields (st : ConvState) (r : LLMResponse) :
    (mergeDuration st r).destination = st.destination ∧
    (mergeDuration st r).travelers = st.travelers ∧
    (mergeDuration st r).budget = st.budget := by
  unfold mergeDuration
  split
  · split
    · split <;> exact ⟨rfl, rfl, rfl⟩
    · exact ⟨rfl, rfl, rfl⟩
  · exact ⟨rfl, rfl, rfl⟩

theorem mergeTravelersFields (st : ConvState) (r : LLMResponse) :
    (mergeTravelers st r).destination = st.destination ∧
    (mergeTravelers st r).duration = st.duration ∧
    (mergeTravelers st r).budget = st.budget := by
  unfold mergeTravelers
  split <;> exact ⟨rfl, rfl, rfl⟩

theorem mergeBudgetSomeFields (st : ConvState) (r : LLMResponse) (s : ConvState)
    (h : mergeBudget st r = some s) :
    s.destination = st.destination ∧ s.duration = st.duration ∧
    s.travelers = st.travelers := by
  unfold mergeBudget at h
  split at h
  · split at h
    · split at h
      · exact absurd h (by simp)
      · cases h; exact ⟨rfl, rfl, rfl⟩
    · cases h; exact ⟨rfl, rfl, rfl⟩
  · cases h; exact ⟨rfl, rfl, rfl⟩

/-- Response and result state used by the C6 witness: a turn that carries a
disambiguation flag. -/
def respWithFlag : LLMResponse :=
  ⟨some "Paris", some 5, none, none,
   some "Which country - Paris, France or another location?", none⟩

/-- State produced from the empty state by one update under respWithFlag. -/
def stateAfterFlag : ConvState :=
  ⟨none, some 5, none, none,
   some "Which country - Paris, France or another location?", none⟩

end RequestParser

/-- C6 (corrected): the completion predicate is gated only on the
model-returned needs_disambiguation flag, not on the parser's fixed
disambiguation list: while the flag is set the destination is never merged
and is_complete is false; and check_destination_disambiguation (which is
never invoked by the update path) flags exactly the destinations whose
title-cased stripped form is on the fixed list. -/
theorem claimC6disambiguationGateAmended :
    (∀ (st : RequestParser.ConvState) (r : RequestParser.LLMResponse)
        (st' : RequestParser.ConvState),
      Py.truthyStr r.needsDisambiguation = true →
      RequestParser.updateConversationState st r = some st' →
      st'.destination = st.destination ∧
        RequestParser.isCompleteState st' = false) ∧
    (∀ dest : String,
      Py.titleStr (String.mk (Py.strip dest.data)) ∈
          RequestParser.ambiguousDestinations →
      (RequestParser.checkDestinationDisambiguation dest).isSome = true) := by
  constructor
  · intro st r st' hflag hupd
    unfold RequestParser.updateConversationState at hupd
    obtain ⟨s, hs, hset⟩ := Option.map_eq_some'.mp hupd
    have hdest1 : (RequestParser.mergeDestination st r).destination =
        st.destination := by
      unfold RequestParser.mergeDestination
      rw [if_neg]
      rintro ⟨_, h2⟩
      exact h2 hflag
    have hdest : s.destination = st.destination := by
      rw [(RequestParser.mergeBudgetSomeFields _ _ _ hs).1,
        (RequestParser.mergeTravelersFields _ _).1,
        (RequestParser.mergeDurationFields _ _).1, hdest1]
    constructor
    · rw [← hset]
      exact hdest
    · rw [← hset]
      simp [RequestParser.isCompleteState, RequestParser.setFlags, hflag]
  · intro dest h
    unfold RequestParser.checkDestinationDisambiguation
    rw [if_pos h]
    rfl

/-- Witness for C6: a concrete flagged turn leaves the destination unset and
the request incomplete, and "Paris" would be flagged by the list check. -/
theorem claimC6disambiguationGateAmendedWitness :
    RequestParser.updateConversationState RequestParser.initialState
        RequestParser.respWithFlag = some RequestParser.stateAfterFlag ∧
    RequestParser.stateAfterFlag.destination =
      RequestParser.initialState.destination ∧
    RequestParser.isCompleteState RequestParser.stateAfterFlag = false ∧
    (RequestParser.checkDestinationDisambiguation "Paris").isSome = true := by
  have h := claimC6disambiguationGateAmended.1 RequestParser.initialState
    RequestParser.respWithFlag RequestParser.stateAfterFlag (by decide) (by decide)
  exact ⟨by decide, h.1, h.2,
    claimC6disambiguationGateAmended.2 "Paris" (by decide)⟩

/-- C6 counterexample: a conversation in which the model first supplies the
budget and then supplies destination "Paris" (on the fixed disambiguation
list) together with duration and travelers, never setting the
needs_disambiguation flag, ends with the destination merged and is_complete
true, so a listed destination does not by itself block completion. -/
theorem claimC6disambiguationCounterexample :
    ((RequestParser.updateConversationState RequestParser.initialState
          ⟨none, none, none, some ⟨100000, "INR"⟩, none, none⟩).bind
        (fun s1 => RequestParser.updateConversationState s1
          ⟨some "Paris", some 5, some ⟨2, 0, 2⟩, none, none, none⟩)).map
        (fun s => (s.destination, RequestParser.isCompleteState s)) =
      some (some "Paris", true) ∧
    "Paris" ∈ RequestParser.ambiguousDestinations := by
  refine ⟨by decide, by decide⟩

namespace RequestParser

theorem validateDurationIff (d : ℚ) :
    validateDuration d = true ↔ (1 ≤ d ∧ d ≤ 365) := by
  simp [validateDuration]

theorem validateBudgetIff (b : ℚ) : validateBudget b = true ↔ 1 ≤ b := by
  simp [validateBudget]

theorem mergeDurationOfValid (st : ConvState) (r : LLMResponse) (d : ℚ)
    (hd : r.duration = some d) (hv : validateDuration d = true) :
    mergeDuration st r = { st with duration := some d } := by
  unfold mergeDuration
  rw [hd]
  have hd0 : d ≠ 0 := by
    intro h
    subst h
    exact absurd hv (by decide)
  dsimp only
  rw [if_pos hd0, if_pos hv]

theorem mergeDurationOfInvalid (st : ConvState) (r : LLMResponse) (d : ℚ)
    (hd : r.duration = some d) (hv : validateDuration d = false) :
    mergeDuration st r = st := by
  unfold mergeDuration
  rw [hd]
  dsimp only
  by_cases hd0 : d = 0
  · rw [if_neg (fun h => h hd0)]
  · rw [if_pos hd0, if_neg (by simp [hv])]

theorem mergeTravelersNone (st : ConvState) (r : LLMResponse)
    (h : r.travelers = none) : mergeTravelers st r = st := by
  unfold mergeTravelers
  rw [h]

theorem mergeBudgetValidNoTravelers (st : ConvState) (r : LLMResponse)
    (b : LLMBudget) (hb : r.budget = some b)
    (hv : validateBudget b.totalAmount = true) (ht : st.travelers = none) :
    mergeBudget st r =
      some { st with budget := some ⟨b.totalAmount, b.currency, none⟩ } := by
  unfold mergeBudget deriveAccommodation
  rw [hb]
  dsimp only
  rw [if_pos hv, ht]

theorem mergeBudgetInvalid (st : ConvState) (r : LLMResponse) (b : LLMBudget)
    (hb : r.budget = some b) (hv : validateBudget b.totalAmount = false) :
    mergeBudget st r = some st := by
  unfold mergeBudget
  rw [hb]
  dsimp only
  rw [if_neg (by simp [hv])]

/-- Response shape for the C7 gate analysis: a single turn carrying a
duration and a budget on a fresh conversation. -/
def mkGateResp (d a : ℚ) (c : String) : LLMResponse :=
  ⟨none, some d, none, some ⟨a, c⟩, none, none⟩

theorem mergeDestinationGateResp (d a : ℚ) (c : String) :
    mergeDestination initialState (mkGateResp d a c) = initialState := by
  unfold mergeDestination
  rw [if_neg]
  rintro ⟨hd, _⟩
  rw [show (mkGateResp d a c).destination = none from rfl] at hd
  exact absurd hd (by decide)

end RequestParser

/-- C7 (corrected): on a fresh conversation, a model-returned duration is
merged iff 1 <= duration <= 365, and a model-returned budget amount is merged
iff amount >= 1 (the configured minimum, not amount > 0); a value failing its
gate leaves the corresponding field unset. -/
theorem claimC7validationGatesAmended :
    ∀ (d a : ℚ) (c : String), ∃ st',
      RequestParser.updateConversationState RequestParser.initialState
          (RequestParser.mkGateResp d a c) = some st' ∧
      (st'.duration = some d ↔ (1 ≤ d ∧ d ≤ 365)) ∧
      (¬(1 ≤ d ∧ d ≤ 365) → st'.duration = none) ∧
      (st'.budget = some ⟨a, c, none⟩ ↔ 1 ≤ a) ∧
      (¬(1 ≤ a) → st'.budget = none) := by
  intro d a c
  have h1 := RequestParser.mergeDestinationGateResp d a c
  have hrd : (RequestParser.mkGateResp d a c).duration = some d := rfl
  have hrt : (RequestParser.mkGateResp d a c).travelers = none := rfl
  have hrb : (RequestParser.mkGateResp d a c).budget = some ⟨a, c⟩ := rfl
  by_cases hv : (1 : ℚ) ≤ d ∧ d ≤ 365 <;> by_cases ha : (1 : ℚ) ≤ a
  · refine ⟨⟨none, some d, none, some ⟨a, c, none⟩, none, none⟩, ?_, ?_, ?_, ?_, ?_⟩
    · unfold RequestParser.updateConversationState
      rw [h1, RequestParser.mergeDurationOfValid _ _ d hrd
          ((RequestParser.validateDurationIff d).mpr hv),
        RequestParser.mergeTravelersNone _ _ hrt,
        RequestParser.mergeBudgetValidNoTravelers _ _ ⟨a, c⟩ hrb
          ((RequestParser.validateBudgetIff a).mpr ha) rfl]
      rfl
    · exact iff_of_true rfl hv
    · exact fun h => absurd hv h
    · exact iff_of_true rfl ha
    · exact fun h => absurd ha h
  · refine ⟨⟨none, some d, none, none, none, none⟩, ?_, ?_, ?_, ?_, ?_⟩
    · unfold RequestParser.updateConversationState
      rw [h1, RequestParser.mergeDurationOfValid _ _ d hrd
          ((RequestParser.validateDurationIff d).mpr hv),
        RequestParser.mergeTravelersNone _ _ hrt,
        RequestParser.mergeBudgetInvalid _ _ ⟨a, c⟩ hrb
          (by simp [RequestParser.validateBudget, ha])]
      rfl
    · exact iff_of_true rfl hv
    · exact fun h => absurd hv h
    · exact iff_of_false (by simp) ha
    · exact fun _ => rfl
  · refine ⟨⟨none, none, none, some ⟨a, c, none⟩, none, none⟩, ?_, ?_, ?_, ?_, ?_⟩
    · unfold RequestParser.updateConversationState
      rw [h1, RequestParser.mergeDurationOfInvalid _ _ d hrd (decide_eq_false hv),
        RequestParser.mergeTravelersNone _ _ hrt,
        RequestParser.mergeBudgetValidNoTravelers _ _ ⟨a, c⟩ hrb
          ((RequestParser.validateBudgetIff a).mpr ha) rfl]
      rfl
    · exact iff_of_false (by simp) hv
    · exact fun _ => rfl
    · exact iff_of_true rfl ha
    · exact fun h => absurd ha h
  · refine ⟨⟨none, none, none, none, none, none⟩, ?_, ?_, ?_, ?_, ?_⟩
    · unfold RequestParser.updateConversationState
      rw [h1, RequestParser.mergeDurationOfInvalid _ _ d hrd (decide_eq_false hv),
        RequestParser.mergeTravelersNone _ _ hrt,
        RequestParser.mergeBudgetInvalid _ _ ⟨a, c⟩ hrb
          (by simp [RequestParser.validateBudget, ha])]
      rfl
    · exact iff_of_false (by simp) hv
    · exact fun _ => rfl
    · exact iff_of_false (by simp) ha
    · exact fun _ => rfl

/-- Witness for C7 amended at duration 400 and amount 1/2: both gates fail
and both fields stay unset. -/
theorem claimC7validationGatesAmendedWitness :
    (RequestParser.updateConversationState RequestParser.initialState
        (RequestParser.mkGateResp 400 (mkRat 1 2) "USD")).map
      (fun s => (s.duration, s.budget)) = some (none, none) := by
  obtain ⟨st', heq, _, h2, _, h4⟩ :=
    claimC7validationGatesAmended 400 (mkRat 1 2) "USD"
  rw [heq]
  have hd : st'.duration = none := h2 (by norm_num)
  have hb : st'.budget = none := h4 (by norm_num [mkRat])
  simp [hd, hb]

/-- C7 counterexample: the amount 1/2 is positive, so by the claim it should
be merged, but validate_budget requires amount >= 1 and the budget field is
left unset. -/
theorem claimC7budgetGateCounterexample :
    (0 < mkRat 1 2) = True ∧
    ((1 : ℚ) ≤ mkRat 1 2) = False ∧
    (RequestParser.updateConversationState RequestParser.initialState
        ⟨none, some 3, none, some ⟨mkRat 1 2, "USD"⟩, none, none⟩).map
      (fun s => s.budget) = some none := by
  refine ⟨by decide, by decide, by decide⟩

/-- C10: determine_accommodation_type divides by travelers_count * duration
with no guard: whenever that product is zero the call raises
ZeroDivisionError (modelled as none), and under the precondition
travelers_count >= 1 and duration >= 1 it always returns a value. -/
theorem claimC10accommodationTypeTotality :
    (∀ (b : ℚ) (t d : Int) (c : String), t * d = 0 →
      RequestParser.determineAccommodationType b t (d : ℚ) c = none) ∧
    (∀ (b : ℚ) (t d : Int) (c : String), 1 ≤ t → 1 ≤ d →
      ∃ v, RequestParser.determineAccommodationType b t (d : ℚ) c = some v) := by
  constructor
  · intro b t d c h
    have h2 : (t : ℚ) * (d : ℚ) = 0 := by exact_mod_cast congrArg (fun x : Int => (x : ℚ)) h
    unfold RequestParser.determineAccommodationType
    rw [if_pos h2]
  · intro b t d c ht hd
    have h2 : (t : ℚ) * (d : ℚ) ≠ 0 := by
      have ht0 : (0 : ℚ) < t := by exact_mod_cast lt_of_lt_of_le Int.zero_lt_one ht
      have hd0 : (0 : ℚ) < d := by exact_mod_cast lt_of_lt_of_le Int.zero_lt_one hd
      exact (mul_pos ht0 hd0).ne'
    simp only [RequestParser.determineAccommodationType, if_neg h2]
    split_ifs <;> exact ⟨_, rfl⟩

/-- Witness for C10: travelers_count 0 raises, and a valid (2 travelers,
3 days) call returns a tier. -/
theorem claimC10accommodationTypeTotalityWitness :
    RequestParser.determineAccommodationType 100 0 ((5 : Int) : ℚ) "USD" = none ∧
    (RequestParser.determineAccommodationType 25000 2 ((3 : Int) : ℚ) "INR").isSome
      = true := by
  constructor
  · exact claimC10accommodationTypeTotality.1 100 0 5 "USD" (by decide)
  · obtain ⟨v, hv⟩ :=
      claimC10accommodationTypeTotality.2 25000 2 3 "INR" (by decide) (by decide)
    rw [hv]
    rfl

namespace RequestParser

/-- A Python value that may hold a string or a number: Budget.total_amount is
annotated float, but the workflow also stores strings such as "25000 INR" in
it, and Python never checks. -/
inductive PyVal
  | str (s : String)
  | num (q : ℚ)
deriving DecidableEq, Repr

/-- The Budget dataclass as the workflow populates it (total_amount may be a
string or a number at runtime). -/
structure CoreBudget where
  totalAmount : PyVal
  currency : String
  accommodationType : Option AccommodationType
deriving DecidableEq, Repr

/-- A fully populated CoreTravelRequest, as constructed by the workflow and
consumed by the downstream agents (the incrementally collected variant is
ConvState above). -/
structure CoreTravelRequest where
  destination : String
  duration : Nat
  travelers : Travelers
  budget : CoreBudget
deriving DecidableEq, Repr

end RequestParser

namespace ActivitiesPlanner

/-- Models the Place dataclass. -/
structure Place where
  name : String
  location : String
  significance : String
  category : String
  estimatedDuration : Option String
  bestTimeToVisit : Option String
deriving DecidableEq, Repr

/-- Models the Activity dataclass. -/
structure Activity where
  name : String
  place : String
  duration : String
  description : String
  costEstimate : Option String
deriving DecidableEq, Repr

/-- One meal slot dictionary of a daily itinerary. -/
structure Meal where
  time : String
  name : String
  place : String
  costEstimate : String
deriving DecidableEq, Repr

/-- Models the DayItinerary dataclass. -/
structure DayItinerary where
  dayNumber : Nat
  date : Option String
  activities : List Activity
  meals : List Meal
  totalEstimatedCost : Option String
  notes : Option String
deriving DecidableEq, Repr

/-- The fixed meal schedule chosen by accommodation type in
_create_daily_itineraries (the else branch covers MID_RANGE and an unset
type). -/
def mealsFor (acc : Option RequestParser.AccommodationType) : List Meal :=
  match acc with
  | some .luxury =>
    [⟨"08:00", "Breakfast", "Hotel restaurant", "₹800-1200"⟩,
     ⟨"13:00", "Lunch", "Fine dining restaurant", "₹1500-2500"⟩,
     ⟨"19:30", "Dinner", "Upscale restaurant", "₹2000-3500"⟩]
  | some .budget =>
    [⟨"08:30", "Breakfast", "Local cafe", "₹200-400"⟩,
     ⟨"12:30", "Lunch", "Street food/Local eatery", "₹300-600"⟩,
     ⟨"19:00", "Dinner", "Budget restaurant", "₹400-800"⟩]
  | _ =>
    [⟨"08:30", "Breakfast", "Hotel/Local restaurant", "₹400-700"⟩,
     ⟨"12:30", "Lunch", "Mid-range restaurant", "₹800-1200"⟩,
     ⟨"19:30", "Dinner", "Local restaurant", "₹1000-1500"⟩]

/-- The slice of the ordered activity list a given day receives:
activities[day*apd : min(day*apd + apd, len)]. -/
def daySlice (acts : List Activity) (apd day : Nat) : List Activity :=
  (acts.drop (day * apd)).take apd

/-- Cost extraction applied to an Optional cost string: a None cost raises
AttributeError inside _extract_cost_range's bare except is NOT reached (the
attribute error happens on cost_str.replace before the try body finishes the
replace chain); it is in fact caught by the same bare except, so a None cost
yields the default range. -/
def extractCostOpt (c : Option String) : Int × Int :=
  match c with
  | none => (500, 1000)
  | some s => extractCostRange s.data

/-- Python str(n) of an Int with thousands separators, as format(n, ",")
produces. -/
def fmtCommaInt (i : Int) : List Char :=
  if i < 0 then '-' :: Py.commaFmt i.natAbs else Py.commaFmt i.natAbs

/-- The daily cost string: rupee sign, comma-grouped min, dash, comma-grouped
max. -/
def dailyCostStr (totalMin totalMax : Int) : String :=
  String.mk ('₹' :: (fmtCommaInt totalMin ++ '-' :: fmtCommaInt totalMax))

/-- The generated note line for a day. CPython set iteration order for
day_places is modelled as first-occurrence order. -/
def dayNotes (day duration : Nat) (dayActivities : List Activity)
    (children : Int) : String :=
  let dayPlaces := (dayActivities.map (fun a => a.place)).eraseDups
  "Day " ++ toString (day + 1) ++ " focuses on " ++
    String.intercalate ", " (dayPlaces.take 2) ++
    (if dayPlaces.length > 2 then "..." else "") ++ ". " ++
    (if children > 0 then "Child-friendly pacing with rest breaks. " else "") ++
    (if day = 0 then "Start with easily accessible attractions to ease into the trip."
     else if day = duration - 1 then
       "Final day with flexible timing for last-minute shopping or relaxation."
     else "")

/-- One iteration of the day loop of _create_daily_itineraries. -/
def buildDay (acts : List Activity) (req : RequestParser.CoreTravelRequest)
    (apd day : Nat) : DayItinerary :=
  let dayActivities := daySlice acts apd day
  let meals := mealsFor req.budget.accommodationType
  let activityCosts := dayActivities.map (fun a => extractCostOpt a.costEstimate)
  let mealCosts := meals.map (fun m => extractCostRange m.costEstimate.data)
  let allCosts := activityCosts ++ mealCosts
  let totalMin := (allCosts.map Prod.fst).sum
  let totalMax := (allCosts.map Prod.snd).sum
  ⟨day + 1, none, dayActivities, meals,
   some (dailyCostStr totalMin totalMax),
   some (dayNotes day req.duration dayActivities req.travelers.children)⟩

/-- The try body of _create_daily_itineraries: activities_per_day =
max(2, len // duration) (a zero duration raises ZeroDivisionError, modelled
as none), then one DayItinerary per day in range(duration). -/
def createDailyItinerariesTry (acts : List Activity)
    (req : RequestParser.CoreTravelRequest) : Option (List DayItinerary) :=
  if req.duration = 0 then none
  else
    let apd := max 2 (acts.length / req.duration)
    some ((List.range req.duration).map (buildDay acts req apd))

/-- Models _create_fallback_itinerary: the same slicing with a fixed two-meal
schedule and fixed cost band (a zero duration raises the same
ZeroDivisionError). -/
def createFallbackItinerary (acts : List Activity)
    (req : RequestParser.CoreTravelRequest) : Option (List DayItinerary) :=
  if req.duration = 0 then none
  else
    let apd := max 2 (acts.length / req.duration)
    some ((List.range req.duration).map (fun day =>
      ⟨day + 1, none, daySlice acts apd day,
       [⟨"12:30", "Lunch", "Local restaurant", "₹800-1200"⟩,
        ⟨"19:30", "Dinner", "Local restaurant", "₹1000-1500"⟩],
       some "₹3000-5000",
       some ("Day " ++ toString (day + 1) ++ " activities")⟩))

/-- Models _create_daily_itineraries including its except handler, which
falls back to _create_fallback_itinerary. -/
def createDailyItineraries (acts : List Activity)
    (req : RequestParser.CoreTravelRequest) : Option (List DayItinerary) :=
  match createDailyItinerariesTry acts req with
  | some r => some r
  | none => createFallbackItinerary acts req

end ActivitiesPlanner

namespace ActivitiesPlanner

theorem rangeMapSucc (d : Nat) :
    (List.range d).map (fun day => day + 1) = List.range' 1 d := by
  induction d with
  | zero => rfl
  | succ k ih =>
    rw [List.range_succ, List.map_append, ih, List.range'_concat]
    simp [Nat.add_comm]

theorem joinDaySlices (acts : List Activity) (apd : Nat) :
    ∀ (k i : Nat),
      ((List.range' i k).map (fun day => daySlice acts apd day)).flatten =
        (acts.drop (i * apd)).take (k * apd) := by
  intro k
  induction k with
  | zero => intro i; simp
  | succ k ih =>
    intro i
    rw [List.range'_succ, List.map_cons, List.flatten_cons, ih (i + 1)]
    unfold daySlice
    rw [show (i + 1) * apd = i * apd + apd by ring, ← List.drop_drop,
      show (k + 1) * apd = apd + k * apd by ring, List.take_add]

theorem joinDaySlicesRange (acts : List Activity) (apd d : Nat) :
    ((List.range d).map (fun day => daySlice acts apd day)).flatten =
      acts.take (d * apd) := by
  rw [List.range_eq_range', joinDaySlices acts apd d 0]
  simp

theorem createDailyItinerariesTrySome (acts : List Activity)
    (req : RequestParser.CoreTravelRequest) (hd : ¬(req.duration = 0)) :
    createDailyItinerariesTry acts req =
      some ((List.range req.duration).map
        (buildDay acts req (max 2 (acts.length / req.duration)))) := by
  unfold createDailyItinerariesTry
  rw [if_neg hd]

theorem createFallbackSome (acts : List Activity)
    (req : RequestParser.CoreTravelRequest) (hd : ¬(req.duration = 0)) :
    ∃ r, createFallbackItinerary acts req = some r ∧
      r.map (fun d => d.dayNumber) = List.range' 1 req.duration ∧
      r.map (fun d => d.activities) =
        (List.range req.duration).map
          (fun day => daySlice acts (max 2 (acts.length / req.duration)) day) := by
  unfold createFallbackItinerary
  rw [if_neg hd]
  refine ⟨_, rfl, ?_, ?_⟩
  · rw [List.map_map]
    exact rangeMapSucc req.duration
  · rw [List.map_map]
    rfl

end ActivitiesPlanner

/-- C3: for every duration >= 1, both the main path of
_create_daily_itineraries (with its fallback handler) and
_create_fallback_itinerary produce day_number values that are exactly
1, ..., duration in increasing order with no gaps or duplicates. -/
theorem claimC3dayNumbersContiguous :
    ∀ (acts : List ActivitiesPlanner.Activity)
      (req : RequestParser.CoreTravelRequest)
      (r : List ActivitiesPlanner.DayItinerary), 1 ≤ req.duration →
      (ActivitiesPlanner.createDailyItineraries acts req = some r →
        r.map (fun d => d.dayNumber) = List.range' 1 req.duration) ∧
      (ActivitiesPlanner.createFallbackItinerary acts req = some r →
        r.map (fun d => d.dayNumber) = List.range' 1 req.duration) := by
  intro acts req r hd
  have hne : ¬(req.duration = 0) := by omega
  constructor
  · intro h
    unfold ActivitiesPlanner.createDailyItineraries at h
    rw [ActivitiesPlanner.createDailyItinerariesTrySome acts req hne] at h
    cases h
    rw [List.map_map]
    exact ActivitiesPlanner.rangeMapSucc req.duration
  · intro h
    obtain ⟨r2, hr2, hnum, _⟩ := ActivitiesPlanner.createFallbackSome acts req hne
    rw [hr2] at h
    cases h
    exact hnum

/-- The default Mumbai request used across concrete scenarios. -/
def mumbaiThreeDayRequest : RequestParser.CoreTravelRequest :=
  ⟨"Mumbai, India", 3, ⟨2, 0, 2⟩,
   ⟨RequestParser.PyVal.str "25000 INR", "INR",
    some RequestParser.AccommodationType.midRange⟩⟩

/-- A concrete ordered list of seven activities. -/
def sevenActivities : List ActivitiesPlanner.Activity :=
  [⟨"a1", "p1", "2 hours", "d1", some "₹100-200"⟩,
   ⟨"a2", "p2", "2 hours", "d2", some "₹100-200"⟩,
   ⟨"a3", "p3", "2 hours", "d3", some "₹100-200"⟩,
   ⟨"a4", "p4", "2 hours", "d4", some "₹100-200"⟩,
   ⟨"a5", "p5", "2 hours", "d5", some "₹100-200"⟩,
   ⟨"a6", "p6", "2 hours", "d6", some "₹100-200"⟩,
   ⟨"a7", "p7", "2 hours", "d7", some "₹100-200"⟩]

/-- Witness for C3: the concrete 3-day request over seven activities yields
day numbers [1, 2, 3] on the main path. -/
theorem claimC3dayNumbersContiguousWitness :
    (ActivitiesPlanner.createDailyItineraries sevenActivities
        mumbaiThreeDayRequest).map (List.map (fun d => d.dayNumber)) =
      some [1, 2, 3] := by
  have heq : ActivitiesPlanner.createDailyItineraries sevenActivities
      mumbaiThreeDayRequest =
      some ((List.range 3).map (ActivitiesPlanner.buildDay sevenActivities
        mumbaiThreeDayRequest 2)) := by
    unfold ActivitiesPlanner.createDailyItineraries
    rw [ActivitiesPlanner.createDailyItinerariesTrySome sevenActivities
      mumbaiThreeDayRequest (by decide)]
    rfl
  have hmap := (claimC3dayNumbersContiguous sevenActivities mumbaiThreeDayRequest
    ((List.range 3).map (ActivitiesPlanner.buildDay sevenActivities
      mumbaiThreeDayRequest 2)) (by decide)).1 heq
  rw [heq, Option.map_some', hmap]
  rfl

/-- C4 (corrected): both distribution paths compute activities_per_day =
max(2, n // duration) and give day i the slice
activities[i*apd : min((i+1)*apd, n)]; the concatenation of all days'
activities is exactly the first duration*apd activities of the input (each
assigned to at most one day), and the last day does not absorb any
remainder: activities beyond index duration*apd are assigned to no day. -/
theorem claimC4distributionAmended :
    ∀ (acts : List ActivitiesPlanner.Activity)
      (req : RequestParser.CoreTravelRequest)
      (r : List ActivitiesPlanner.DayItinerary), 1 ≤ req.duration →
      (ActivitiesPlanner.createDailyItinerariesTry acts req = some r ∨
        ActivitiesPlanner.createFallbackItinerary acts req = some r) →
      r.map (fun d => d.activities) =
        (List.range req.duration).map
          (fun day => ActivitiesPlanner.daySlice acts
            (max 2 (acts.length / req.duration)) day) ∧
      (r.map (fun d => d.activities)).flatten =
        acts.take (req.duration * max 2 (acts.length / req.duration)) := by
  intro acts req r hd h
  have hne : ¬(req.duration = 0) := by omega
  have hmain : r.map (fun d => d.activities) =
      (List.range req.duration).map
        (fun day => ActivitiesPlanner.daySlice acts
          (max 2 (acts.length / req.duration)) day) := by
    rcases h with h | h
    · rw [ActivitiesPlanner.createDailyItinerariesTrySome acts req hne] at h
      cases h
      rw [List.map_map]
      rfl
    · obtain ⟨r2, hr2, _, hacts⟩ := ActivitiesPlanner.createFallbackSome acts req hne
      rw [hr2] at h
      cases h
      exact hacts
  refine ⟨hmain, ?_⟩
  rw [hmain, ActivitiesPlanner.joinDaySlicesRange]

/-- Witness for C4 amended: seven activities over three days concatenate to
the first six activities. -/
theorem claimC4distributionAmendedWitness :
    (((List.range 3).map (ActivitiesPlanner.buildDay sevenActivities
        mumbaiThreeDayRequest 2)).map (fun d => d.activities)).flatten =
      sevenActivities.take 6 := by
  have h := (claimC4distributionAmended sevenActivities mumbaiThreeDayRequest
    ((List.range mumbaiThreeDayRequest.duration).map
      (ActivitiesPlanner.buildDay sevenActivities mumbaiThreeDayRequest
        (max 2 (sevenActivities.length / mumbaiThreeDayRequest.duration))))
    (by decide)
    (Or.inl (ActivitiesPlanner.createDailyItinerariesTrySome sevenActivities
      mumbaiThreeDayRequest (by decide)))).2
  exact h

/-- C4 counterexample: with seven activities over three days,
activities_per_day = max(2, 7 // 3) = 2, the three day slices cover only the
first six activities, and the seventh activity of the input is assigned to no
day, so the last day does not absorb the remainder and not every input
activity is assigned. -/
theorem claimC4lastDayRemainderCounterexample :
    (ActivitiesPlanner.createDailyItineraries sevenActivities
        mumbaiThreeDayRequest).map
      (fun r => (r.map (fun d => d.activities)).flatten) =
      some (sevenActivities.take 6) ∧
    sevenActivities.length = 7 ∧
    max 2 (sevenActivities.length / 3) = 2 ∧
    (⟨"a7", "p7", "2 hours", "d7", some "₹100-200"⟩ :
        ActivitiesPlanner.Activity) ∈ sevenActivities ∧
    (⟨"a7", "p7", "2 hours", "d7", some "₹100-200"⟩ :
        ActivitiesPlanner.Activity) ∉ sevenActivities.take 6 := by
  have heq : ActivitiesPlanner.createDailyItineraries sevenActivities
      mumbaiThreeDayRequest =
      some ((List.range 3).map (ActivitiesPlanner.buildDay sevenActivities
        mumbaiThreeDayRequest 2)) := by
    unfold ActivitiesPlanner.createDailyItineraries
    rw [ActivitiesPlanner.createDailyItinerariesTrySome sevenActivities
      mumbaiThreeDayRequest (by decide)]
    rfl
  refine ⟨?_, by decide, by decide, by decide, by decide⟩
  rw [heq, Option.map_some']
  have hacts : (((List.range 3).map (ActivitiesPlanner.buildDay sevenActivities
      mumbaiThreeDayRequest 2)).map (fun d => d.activities)) =
      (List.range 3).map (fun day => ActivitiesPlanner.daySlice sevenActivities 2 day) := by
    rw [List.map_map]
    rfl
  rw [hacts, ActivitiesPlanner.joinDaySlicesRange]

namespace ActivitiesPlanner

/-- Models the ItineraryOutput dataclass handed to the accommodation
suggester. -/
structure ItineraryOutput where
  destination : String
  durationDays : Nat
  totalBudget : String
  accommodationType : Option RequestParser.AccommodationType
  mustVisitPlaces : List Place
  dailyItineraries : List DayItinerary
  totalEstimatedCost : Option String
  recommendations : Option String
deriving DecidableEq, Repr

end ActivitiesPlanner

namespace AccommodationSuggester

/-- Models the AccommodationOption dataclass. -/
structure AccommodationOption where
  name : String
  location : String
  pricePerNight : ℚ
  totalCost : ℚ
  rating : Option String
  briefDescription : Option String
  proximityScore : Option String
  travelConvenience : Option String
deriving DecidableEq, Repr

/-- Models the AccommodationOutput dataclass. -/
structure AccommodationOutput where
  destination : String
  durationDays : Nat
  budgetAllocated : ℚ
  budgetCategory : String
  nightlyBudgetRange : String
  keyActivityAreas : List String
  accommodationOptions : List AccommodationOption
deriving DecidableEq, Repr

/-- The budget_info dictionary produced by _extract_budget_info. -/
structure BudgetInfo where
  totalBudget : ℚ
  currency : String
  accommodationBudget : ℚ
  nightlyBudget : ℚ
deriving DecidableEq, Repr

/-- Models AccommodationSuggester._extract_budget_info: split the total
budget string on whitespace, float the first part, take the second as
currency, allocate a fixed 40% and divide by the duration; any failure
(missing parts, list index, float conversion, zero duration) is caught and
re-raised as the single ValueError message. The float literal 0.4 is
modelled as the exact rational 2/5; the comparisons downstream are far from
any rounding boundary. -/
def extractBudgetInfo (it : ActivitiesPlanner.ItineraryOutput) :
    Except String BudgetInfo :=
  let errMsg := "Invalid budget format in itinerary: " ++ it.totalBudget
  match Py.splitWS it.totalBudget.data with
  | p0 :: rest =>
    match Py.pyFloat p0, rest with
    | some tb, c :: _ =>
      if it.durationDays = 0 then Except.error errMsg
      else
        Except.ok ⟨tb, String.mk c, tb * (0.4 : ℚ),
          tb * (0.4 : ℚ) / (it.durationDays : ℚ)⟩
    | _, _ => Except.error errMsg
  | [] => Except.error errMsg

/-- One min-max price band of a budget_categories table. -/
structure Band where
  minVal : ℚ
  maxVal : ℚ
deriving DecidableEq, Repr

/-- A complete budget_categories table (the schema the research prompt
demands and both fallback tables provide). -/
structure BudgetCategories where
  low : Band
  medium : Band
  high : Band
deriving DecidableEq, Repr

/-- A possibly-partial budget_categories dictionary as _classify_budget_tier
receives it: a missing key raises inside the method and is caught there. -/
structure BudgetCatsDict where
  low : Option Band
  medium : Option Band
  high : Option Band
deriving DecidableEq, Repr

/-- View of a complete table as the dictionary the classifier reads. -/
def toDict (c : BudgetCategories) : BudgetCatsDict :=
  ⟨some c.low, some c.medium, some c.high⟩

/-- Models AccommodationSuggester._classify_budget_tier: nightly <= low.max
gives "low", nightly <= medium.max gives "medium", else "high"; any
exception while reading the two maxima (a missing key) yields "medium". -/
def classifyBudgetTier (nightly : ℚ) (cats : BudgetCatsDict) : String :=
  match cats.low, cats.medium with
  | some l, some m =>
    if nightly ≤ l.maxVal then "low"
    else if nightly ≤ m.maxVal then "medium"
    else "high"
  | _, _ => "medium"

/-- Models AccommodationSuggester._fallback_budget_categories: fixed
currency-keyed tables for INR, USD, and a generic default. -/
def fallbackBudgetCategories (currency : String) : BudgetCategories :=
  if currency = "INR" then ⟨⟨1500, 3500⟩, ⟨3500, 8000⟩, ⟨8000, 25000⟩⟩
  else if currency = "USD" then ⟨⟨25, 75⟩, ⟨75, 200⟩, ⟨200, 600⟩⟩
  else ⟨⟨30, 80⟩, ⟨80, 200⟩, ⟨200, 500⟩⟩

/-- Naive area extraction of _fallback_location_analysis for one place:
comma-split the location and take the stripped second-to-last segment, or
the stripped whole string when there is no comma. -/
def areaOf (location : String) : String :=
  let parts := Py.splitOnChar ',' location.data
  match parts.reverse with
  | _ :: secondLast :: _ => String.mk (Py.strip secondLast)
  | _ => String.mk (Py.strip location.data)

/-- Models AccommodationSuggester._fallback_location_analysis: deduplicate
the naive areas and keep the first four. CPython set iteration order is
modelled as first-occurrence order. -/
def fallbackLocationAnalysis (places : List ActivitiesPlanner.Place) :
    List String :=
  ((places.map (fun p => areaOf p.location)).eraseDups).take 4

/-- One hotel dictionary as the extraction step returns it; every field is
optional, matching the .get defaults of _format_accommodation_options. -/
structure HotelDict where
  name : Option String
  location : Option String
  pricePerNight : Option ℚ
  rating : Option String
  briefDescription : Option String
  proximityScore : Option String
  travelConvenience : Option String
deriving DecidableEq, Repr

/-- Abstract outcomes of the suggester's network collaborators: none models
an exception or malformed response at that step, triggering that step's
fallback. catsResult is the inner budget_categories dictionary of the parsed
research response: the method only reads the top-level key inside its try (a
missing top-level key falls back, none here), but the inner table is passed
on unvalidated, so its per-tier bands may be missing. searchFailed models an
exception inside the outer hotel-search try-block, which returns an empty
list. -/
structure SuggesterEnv where
  locResult : Option (List String)
  catsResult : Option BudgetCatsDict
  hotelsResult : Option (List HotelDict)
  searchFailed : Bool

/-- Models AccommodationSuggester._analyze_activity_locations: an LLM result
is truncated to the top 4; any failure falls back to the naive analysis. -/
def analyzeActivityLocations (env : SuggesterEnv)
    (it : ActivitiesPlanner.ItineraryOutput) : List String :=
  match env.locResult with
  | some areas => areas.take 4
  | none => fallbackLocationAnalysis it.mustVisitPlaces

/-- Models AccommodationSuggester._research_budget_categories: any failure
inside the try (search, LLM, JSON parse, or the missing top-level
budget_categories key read by the logging line) falls back to the fixed
currency-keyed tables; a successfully parsed response's inner table is
returned as-is, without validating that all three bands are present. -/
def researchBudgetCategories (env : SuggesterEnv) (currency : String) :
    BudgetCatsDict :=
  match env.catsResult with
  | some cats => cats
  | none => toDict (fallbackBudgetCategories currency)

/-- Models AccommodationSuggester._fallback_hotel_extraction: a single
synthetic placeholder option tagged with the tier. -/
def fallbackHotelExtraction (destination tier : String) (nightly : ℚ) :
    List HotelDict :=
  [⟨some ("Sample " ++ Py.titleStr tier ++ " Hotel " ++ destination),
    some ("Central " ++ destination), some nightly, some "4.0/5",
    some ("Quality " ++ tier ++ " accommodation in " ++ destination),
    some "Near major attractions", some "Walking distance to activities"⟩]

/-- The budget_categories[budget_tier] dictionary lookup: a missing band for
the tier raises KeyError (none). -/
def bandFor (cats : BudgetCatsDict) (tier : String) : Option Band :=
  if tier = "low" then cats.low
  else if tier = "medium" then cats.medium
  else if tier = "high" then cats.high
  else none

/-- Models AccommodationSuggester._search_hotels_by_location: any exception
in the outer try returns an empty list — both the budget_categories lookup
of the tier band (which raises KeyError when the unvalidated table is
missing that band) and a search failure; an extraction failure substitutes
the placeholder fallback. -/
def searchHotelsByLocation (env : SuggesterEnv) (destination tier : String)
    (nightly : ℚ) (cats : BudgetCatsDict) : List HotelDict :=
  match bandFor cats tier with
  | none => []
  | some _ =>
    if env.searchFailed then []
    else
      match env.hotelsResult with
      | some hs => hs
      | none => fallbackHotelExtraction destination tier nightly

/-- Models AccommodationSuggester._format_accommodation_options: safe .get
defaults per field and total_cost = price_per_night * duration. -/
def formatAccommodationOptions (hotels : List HotelDict) (duration : Nat) :
    List AccommodationOption :=
  hotels.map (fun h =>
    let price := h.pricePerNight.getD 0
    ⟨h.name.getD "Hotel Name", h.location.getD "City Center", price,
     price * (duration : ℚ), some (h.rating.getD "4.0/5"),
     some (h.briefDescription.getD "Quality accommodation"),
     some (h.proximityScore.getD "Near attractions"),
     some (h.travelConvenience.getD "Convenient location")⟩)

/-- Python str() of the numbers interpolated into the nightly range (integer
rationals print as Python ints do; non-integers differ from float repr,
which no claim touches). -/
def ratStr (q : ℚ) : String := toString q

/-- Models AccommodationSuggester.suggest_accommodations: the five steps in
source order; the outer except re-raises, so an error from budget extraction
propagates, and so does the KeyError from the step-6 dictionary lookup
budget_categories[budget_tier] while formatting the nightly range when the
unvalidated research table is missing the classified tier's band. -/
def suggestAccommodations (env : SuggesterEnv)
    (it : ActivitiesPlanner.ItineraryOutput) :
    Except String AccommodationOutput :=
  match extractBudgetInfo it with
  | .error e => .error e
  | .ok bi =>
    let areas := analyzeActivityLocations env it
    let cats := researchBudgetCategories env bi.currency
    let tier := classifyBudgetTier bi.nightlyBudget cats
    let hotels :=
      searchHotelsByLocation env it.destination tier bi.nightlyBudget cats
    match bandFor cats tier with
    | none => .error "KeyError"
    | some band =>
      .ok ⟨it.destination, it.durationDays, bi.accommodationBudget, tier,
        ratStr band.minVal ++ "-" ++ ratStr band.maxVal ++ " " ++ bi.currency,
        areas, formatAccommodationOptions hotels it.durationDays⟩

end AccommodationSuggester

/-- The itinerary of the end-to-end Mumbai scenario: 25000 INR over 3 days. -/
def mumbaiItinerary : ActivitiesPlanner.ItineraryOutput :=
  ⟨"Mumbai, India", 3, "25000 INR",
   some RequestParser.AccommodationType.midRange, [], [], none, none⟩

theorem extractBudgetInfoMumbai :
    AccommodationSuggester.extractBudgetInfo mumbaiItinerary =
      Except.ok ⟨25000, "INR", 10000, 10000 / 3⟩ := by
  unfold AccommodationSuggester.extractBudgetInfo
  rw [show Py.splitWS mumbaiItinerary.totalBudget.data =
    ["25000".data, "INR".data] from by decide]
  dsimp only
  rw [show Py.pyFloat "25000".data = some (25000 : ℚ) from by decide]
  dsimp only
  rw [if_neg (by decide)]
  have h1 : (25000 : ℚ) * 0.4 = 10000 := by norm_num
  rw [h1]
  have h2 : (10000 : ℚ) / ((mumbaiItinerary.durationDays : Nat) : ℚ) =
      10000 / 3 := by norm_num [mumbaiItinerary]
  rw [h2]

/-- C2: the tier classifier returns "low" when the nightly budget is at most
low.max, "medium" when it is above low.max but at most medium.max, "high"
otherwise, and "medium" whenever the table is missing either consulted band;
and in the 25000 INR / 3 days scenario the 40% allocation is 10000 INR, the
nightly budget is 10000/3 INR (3333.33 to two decimals), and the INR
fallback table classifies it "low". -/
theorem claimC2tierClassification :
    (∀ (b : ℚ) (l m hb : AccommodationSuggester.Band),
      (b ≤ l.maxVal →
        AccommodationSuggester.classifyBudgetTier b ⟨some l, some m, some hb⟩ =
          "low") ∧
      (l.maxVal < b → b ≤ m.maxVal →
        AccommodationSuggester.classifyBudgetTier b ⟨some l, some m, some hb⟩ =
          "medium") ∧
      (l.maxVal < b → m.maxVal < b →
        AccommodationSuggester.classifyBudgetTier b ⟨some l, some m, some hb⟩ =
          "high")) ∧
    (∀ (b : ℚ) (cats : AccommodationSuggester.BudgetCatsDict),
      cats.low = none ∨ cats.medium = none →
      AccommodationSuggester.classifyBudgetTier b cats = "medium") ∧
    AccommodationSuggester.extractBudgetInfo mumbaiItinerary =
      Except.ok ⟨25000, "INR", 10000, 10000 / 3⟩ ∧
    ⌊(10000 / 3 : ℚ) * 100⌋ = (333333 : ℤ) ∧
    AccommodationSuggester.classifyBudgetTier (10000 / 3)
      (AccommodationSuggester.toDict
        (AccommodationSuggester.fallbackBudgetCategories "INR")) = "low" := by
  refine ⟨?_, ?_, extractBudgetInfoMumbai, ?_, ?_⟩
  · intro b l m hb
    refine ⟨?_, ?_, ?_⟩
    · intro h
      unfold AccommodationSuggester.classifyBudgetTier
      dsimp only
      rw [if_pos h]
    · intro h1 h2
      unfold AccommodationSuggester.classifyBudgetTier
      dsimp only
      rw [if_neg (not_le.mpr h1), if_pos h2]
    · intro h1 h2
      unfold AccommodationSuggester.classifyBudgetTier
      dsimp only
      rw [if_neg (not_le.mpr h1), if_neg (not_le.mpr h2)]
  · intro b cats h
    rcases cats with ⟨lo, me, hi⟩
    dsimp only at h
    rcases h with rfl | rfl
    · cases me <;> rfl
    · cases lo <;> rfl
  · rw [show (10000 / 3 : ℚ) * 100 = 1000000 / 3 by norm_num,
      Int.floor_eq_iff]
    constructor <;> norm_num
  · rw [show AccommodationSuggester.fallbackBudgetCategories "INR" =
      ⟨⟨1500, 3500⟩, ⟨3500, 8000⟩, ⟨8000, 25000⟩⟩ from rfl]
    unfold AccommodationSuggester.toDict AccommodationSuggester.classifyBudgetTier
    dsimp only
    rw [if_pos (by norm_num : (10000 / 3 : ℚ) ≤ 3500)]

/-- Witness for C2 at concrete budgets against the INR fallback bands and a
malformed table. -/
theorem claimC2tierClassificationWitness :
    AccommodationSuggester.classifyBudgetTier 3000
      ⟨some ⟨1500, 3500⟩, some ⟨3500, 8000⟩, some ⟨8000, 25000⟩⟩ = "low" ∧
    AccommodationSuggester.classifyBudgetTier 5000
      ⟨some ⟨1500, 3500⟩, some ⟨3500, 8000⟩, some ⟨8000, 25000⟩⟩ = "medium" ∧
    AccommodationSuggester.classifyBudgetTier 9000
      ⟨some ⟨1500, 3500⟩, some ⟨3500, 8000⟩, some ⟨8000, 25000⟩⟩ = "high" ∧
    AccommodationSuggester.classifyBudgetTier 5
      ⟨none, some ⟨1, 2⟩, none⟩ = "medium" :=
  ⟨(claimC2tierClassification.1 3000 ⟨1500, 3500⟩ ⟨3500, 8000⟩ ⟨8000, 25000⟩).1
      (by norm_num),
   (claimC2tierClassification.1 5000 ⟨1500, 3500⟩ ⟨3500, 8000⟩ ⟨8000, 25000⟩).2.1
      (by norm_num) (by norm_num),
   (claimC2tierClassification.1 9000 ⟨1500, 3500⟩ ⟨3500, 8000⟩ ⟨8000, 25000⟩).2.2
      (by norm_num) (by norm_num),
   claimC2tierClassification.2.1 5 ⟨none, some ⟨1, 2⟩, none⟩ (Or.inl rfl)⟩

namespace AccommodationSuggester

theorem classifyBudgetTierMem (b : ℚ) (cats : BudgetCatsDict) :
    classifyBudgetTier b cats = "low" ∨ classifyBudgetTier b cats = "medium" ∨
      classifyBudgetTier b cats = "high" := by
  unfold classifyBudgetTier
  split
  · split_ifs <;> simp
  · simp

theorem bandForTotal (c : BudgetCategories) (tier : String)
    (h : tier = "low" ∨ tier = "medium" ∨ tier = "high") :
    ∃ band, bandFor (toDict c) tier = some band := by
  rcases h with rfl | rfl | rfl
  · exact ⟨c.low, rfl⟩
  · exact ⟨c.medium, rfl⟩
  · exact ⟨c.high, rfl⟩

end AccommodationSuggester

/-- C5 (corrected): steps two, four and five of the pipeline (location
clustering, tier classification, hotel search and extraction) substitute a
canned default on error, and step three (budget-tier research) substitutes
the fixed currency-keyed table when its try fails; but a successfully parsed
research table is not validated, so when it is missing the classified tier's
band, step six's budget_categories[budget_tier] lookup raises KeyError and
suggest_accommodations re-raises it; when budget extraction succeeds and the
table has the tier's band — in particular whenever the research fallback was
substituted — the call completes without raising; and budget extraction does
not fall back either: on a total-budget string that does not parse as
"amount currency" it raises ValueError and suggest_accommodations re-raises
it. -/
theorem claimC5pipelineFallbacksAmended :
    ∀ (env : AccommodationSuggester.SuggesterEnv)
      (it : ActivitiesPlanner.ItineraryOutput),
      (∀ e, AccommodationSuggester.extractBudgetInfo it = Except.error e →
        AccommodationSuggester.suggestAccommodations env it = Except.error e) ∧
      (∀ bi, AccommodationSuggester.extractBudgetInfo it = Except.ok bi →
        (AccommodationSuggester.bandFor
            (AccommodationSuggester.researchBudgetCategories env bi.currency)
            (AccommodationSuggester.classifyBudgetTier bi.nightlyBudget
              (AccommodationSuggester.researchBudgetCategories env
                bi.currency)) = none →
          AccommodationSuggester.suggestAccommodations env it =
            Except.error "KeyError") ∧
        (∀ band, AccommodationSuggester.bandFor
            (AccommodationSuggester.researchBudgetCategories env bi.currency)
            (AccommodationSuggester.classifyBudgetTier bi.nightlyBudget
              (AccommodationSuggester.researchBudgetCategories env
                bi.currency)) = some band →
          ∃ out, AccommodationSuggester.suggestAccommodations env it =
            Except.ok out) ∧
        (env.catsResult = none →
          ∃ out, AccommodationSuggester.suggestAccommodations env it =
            Except.ok out)) := by
  intro env it
  constructor
  · intro e he
    unfold AccommodationSuggester.suggestAccommodations
    rw [he]
  · intro bi hbi
    have hsome : ∀ band, AccommodationSuggester.bandFor
        (AccommodationSuggester.researchBudgetCategories env bi.currency)
        (AccommodationSuggester.classifyBudgetTier bi.nightlyBudget
          (AccommodationSuggester.researchBudgetCategories env bi.currency)) =
          some band →
        ∃ out, AccommodationSuggester.suggestAccommodations env it =
          Except.ok out := by
      intro band hband
      unfold AccommodationSuggester.suggestAccommodations
      rw [hbi]
      dsimp only
      rw [hband]
      exact ⟨_, rfl⟩
    refine ⟨?_, hsome, ?_⟩
    · intro hnone
      unfold AccommodationSuggester.suggestAccommodations
      rw [hbi]
      dsimp only
      rw [hnone]
    · intro hcats
      have hres : AccommodationSuggester.researchBudgetCategories env
          bi.currency = AccommodationSuggester.toDict
            (AccommodationSuggester.fallbackBudgetCategories bi.currency) := by
        unfold AccommodationSuggester.researchBudgetCategories
        rw [hcats]
      obtain ⟨band, hband⟩ :=
        AccommodationSuggester.bandForTotal
          (AccommodationSuggester.fallbackBudgetCategories bi.currency)
          (AccommodationSuggester.classifyBudgetTier bi.nightlyBudget
            (AccommodationSuggester.toDict
              (AccommodationSuggester.fallbackBudgetCategories bi.currency)))
          (AccommodationSuggester.classifyBudgetTierMem bi.nightlyBudget _)
      exact hsome band (by rw [hres]; exact hband)

/-- The itinerary whose total budget string cannot be parsed as
"amount currency". -/
def badBudgetItinerary : ActivitiesPlanner.ItineraryOutput :=
  ⟨"Mumbai, India", 3, "mid-range",
   some RequestParser.AccommodationType.midRange, [], [], none, none⟩

/-- The all-fallback collaborator environment. -/
def allFallbackEnv : AccommodationSuggester.SuggesterEnv :=
  ⟨none, none, none, false⟩

/-- C5 counterexample: on the unparsable total-budget string "mid-range",
suggest_accommodations raises the budget ValueError instead of substituting
a default and completing. -/
theorem claimC5budgetExtractionCounterexample :
    AccommodationSuggester.suggestAccommodations allFallbackEnv
        badBudgetItinerary =
      Except.error "Invalid budget format in itinerary: mid-range" := by
  rfl

/-- A collaborator environment whose budget research parses to a table that
is missing the "high" band. -/
def missingHighEnv : AccommodationSuggester.SuggesterEnv :=
  ⟨none, some ⟨some ⟨10, 20⟩, some ⟨20, 30⟩, none⟩, none, false⟩

/-- Witness for C5 amended: with the parseable Mumbai budget every
collaborator failure still yields a successful output; a parsed research
table missing the "high" band makes the same call raise KeyError; and the
bad budget string propagates its ValueError. -/
theorem claimC5pipelineFallbacksAmendedWitness :
    (AccommodationSuggester.suggestAccommodations allFallbackEnv
        mumbaiItinerary).isOk = true ∧
    AccommodationSuggester.suggestAccommodations missingHighEnv
        mumbaiItinerary = Except.error "KeyError" ∧
    (AccommodationSuggester.suggestAccommodations allFallbackEnv
        badBudgetItinerary).isOk = false := by
  refine ⟨?_, ?_, ?_⟩
  · obtain ⟨out, hout⟩ :=
      ((claimC5pipelineFallbacksAmended allFallbackEnv mumbaiItinerary).2
        ⟨25000, "INR", 10000, 10000 / 3⟩ extractBudgetInfoMumbai).2.2 rfl
    rw [hout]
    rfl
  · have htier : AccommodationSuggester.classifyBudgetTier (10000 / 3)
        ⟨some ⟨10, 20⟩, some ⟨20, 30⟩, none⟩ = "high" := by
      unfold AccommodationSuggester.classifyBudgetTier
      dsimp only
      rw [if_neg (by norm_num), if_neg (by norm_num)]
    refine ((claimC5pipelineFallbacksAmended missingHighEnv
        mumbaiItinerary).2 ⟨25000, "INR", 10000, 10000 / 3⟩
        extractBudgetInfoMumbai).1 ?_
    show AccommodationSuggester.bandFor ⟨some ⟨10, 20⟩, some ⟨20, 30⟩, none⟩
      (AccommodationSuggester.classifyBudgetTier (10000 / 3)
        ⟨some ⟨10, 20⟩, some ⟨20, 30⟩, none⟩) = none
    rw [htier]
    rfl
  · have he := (claimC5pipelineFallbacksAmended allFallbackEnv
        badBudgetItinerary).1
      "Invalid budget format in itinerary: mid-range" (by rfl)
    rw [he]
    rfl

namespace Workflow

/-- Models the AgentStatus enum. -/
inductive AgentStatus
  | pending
  | running
  | completed
  | failed
  | skipped
deriving DecidableEq, Repr

/-- Models the WorkflowStage enum. -/
inductive WorkflowStage
  | parsingRequest
  | findingPlaces
  | planningActivities
  | findingAccommodations
  | assemblingResponse
  | completed
  | failed
deriving DecidableEq, Repr

/-- Models the AgentExecution dataclass (wall-clock timestamps and durations
are not modelled). -/
structure AgentExecution where
  agentName : String
  status : AgentStatus
  errorMessage : Option String
  retryCount : Nat
deriving DecidableEq, Repr

/-- A fresh AgentExecution record. -/
def initAgentExecution (name : String) : AgentExecution :=
  ⟨name, .pending, none, 0⟩

/-- Models the WorkflowMetadata dataclass (timestamps and performance notes
are not modelled). -/
structure WorkflowMetadata where
  workflowId : String
  currentStage : WorkflowStage
  overallStatus : String
  requestParser : AgentExecution
  activitiesPlanner : AgentExecution
  accommodationSuggester : AgentExecution
  errors : List String
  warnings : List String
deriving DecidableEq, Repr

/-- Models create_workflow_metadata. -/
def createWorkflowMetadata (id : String) : WorkflowMetadata :=
  ⟨id, .parsingRequest, "running", initAgentExecution "RequestParser",
   initAgentExecution "ActivitiesPlanner",
   initAgentExecution "AccommodationSuggester", [], []⟩

/-- Models the TravelItineraryResponse dataclass (workflow_metadata is always
populated by the orchestrator, hence non-optional here). -/
structure TravelItineraryResponse where
  parsedRequest : Option RequestParser.CoreTravelRequest
  itinerary : Option ActivitiesPlanner.ItineraryOutput
  accommodations : Option AccommodationSuggester.AccommodationOutput
  workflowMetadata : WorkflowMetadata
  summary : Option String
  userInput : Option String
deriving DecidableEq, Repr

/-- Models create_empty_response. -/
def createEmptyResponse (input : String) (md : WorkflowMetadata) :
    TravelItineraryResponse :=
  ⟨none, none, none, md, none, some input⟩

/-- Models WorkflowMetadata.has_errors. -/
def hasErrors (md : WorkflowMetadata) : Bool :=
  ¬ md.errors.isEmpty ∨ md.requestParser.status = .failed ∨
  md.activitiesPlanner.status = .failed ∨
  md.accommodationSuggester.status = .failed

/-- Models WorkflowMetadata.is_partial_success. -/
def isPartialSuccess (md : WorkflowMetadata) : Bool :=
  (md.requestParser.status = .completed ∨
    md.activitiesPlanner.status = .completed ∨
    md.accommodationSuggester.status = .completed) ∧
  (md.requestParser.status = .failed ∨
    md.activitiesPlanner.status = .failed ∨
    md.accommodationSuggester.status = .failed)

/-- Models TravelItineraryResponse.is_complete. -/
def isCompleteResponse (r : TravelItineraryResponse) : Bool :=
  r.parsedRequest.isSome ∧ r.itinerary.isSome ∧ r.accommodations.isSome

/-- Models TravelItineraryResponse.is_partial. -/
def isPartial (r : TravelItineraryResponse) : Bool :=
  (r.parsedRequest.isSome ∨ r.itinerary.isSome ∨ r.accommodations.isSome) ∧
  ¬ (r.parsedRequest.isSome ∧ r.itinerary.isSome ∧ r.accommodations.isSome)

/-- Outcome of one attempt of a stage: a timeout, an exception with its
message, or a result. -/
inductive Outcome (α : Type)
  | timeout
  | exc (msg : String)
  | ok (val : α)

/-- The state a stage's retry loop leaves behind: the agent record, the
assigned value if any, and the metadata errors list. -/
structure StageRun (α : Type) where
  exec : AgentExecution
  value : Option α
  errors : List String
deriving Repr

/-- The workflow's configured retry bound. -/
def maxRetries : Nat := 2

/-- Models the uniform per-stage retry loop of the orchestrator: each
attempt marks the agent running; a result completes the agent; a timeout or
exception retries while attempts remain (incrementing retry_count) and
otherwise fails the agent, a final exception also appending its message to
the metadata errors (the timeout branch does not append). fuel counts the
remaining attempts including the current one. -/
def stageLoop {α : Type} (f : Nat → Outcome α) (timeoutMsg excPrefix : String) :
    Nat → Nat → AgentExecution → List String → StageRun α
  | 0, _, exec, errs => ⟨exec, none, errs⟩
  | fuel + 1, i, exec, errs =>
    let exec1 := { exec with status := AgentStatus.running }
    match f i with
    | .ok v => ⟨{ exec1 with status := AgentStatus.completed }, some v, errs⟩
    | .timeout =>
      if 0 < fuel then
        stageLoop f timeoutMsg excPrefix fuel (i + 1)
          { exec1 with retryCount := exec1.retryCount + 1 } errs
      else
        ⟨{ exec1 with status := AgentStatus.failed, errorMessage := some timeoutMsg },
         none, errs⟩
    | .exc m =>
      if 0 < fuel then
        stageLoop f timeoutMsg excPrefix fuel (i + 1)
          { exec1 with retryCount := exec1.retryCount + 1 } errs
      else
        ⟨{ exec1 with status := AgentStatus.failed, errorMessage := some (excPrefix ++ m) },
         none, errs ++ [excPrefix ++ m]⟩

/-- What the parser stage's successful attempt carries: the is_complete flag
of the conversational response, and the CoreTravelRequest that
_convert_to_core_travel_request builds from get_final_request in the
complete case (abstracted, since no claim concerns that conversion). -/
structure ParserOk where
  isComplete : Bool
  converted : RequestParser.CoreTravelRequest

/-- The hard-coded simplified request of
_create_partial_request_from_response. -/
def partialRequestDefault : RequestParser.CoreTravelRequest :=
  ⟨"Mumbai, India", 3, ⟨2, 0, 2⟩,
   ⟨RequestParser.PyVal.str "25000 INR", "INR",
    some RequestParser.AccommodationType.midRange⟩⟩

/-- The request assigned to response.parsed_request from a successful parser
attempt: the converted final request when complete, the hard-coded default
otherwise. -/
def parsedOf (p : ParserOk) : RequestParser.CoreTravelRequest :=
  if p.isComplete then p.converted else partialRequestDefault

/-- The abstract behavior of the three agents, per attempt index; the two
downstream agents are functions of the value the orchestrator passes them. -/
structure WorkflowEnv where
  parserAttempt : Nat → Outcome ParserOk
  plannerAttempt : RequestParser.CoreTravelRequest → Nat →
    Outcome ActivitiesPlanner.ItineraryOutput
  suggesterAttempt : ActivitiesPlanner.ItineraryOutput → Nat →
    Outcome AccommodationSuggester.AccommodationOutput

/-- Models TravelItineraryWorkflow._execute_request_parser. -/
def executeRequestParser (env : WorkflowEnv) (resp : TravelItineraryResponse) :
    TravelItineraryResponse :=
  let md := { resp.workflowMetadata with currentStage := WorkflowStage.parsingRequest }
  let run := stageLoop env.parserAttempt "RequestParser timeout after 180s"
    "RequestParser error: " (maxRetries + 1) 0 md.requestParser md.errors
  { resp with
    parsedRequest := run.value.map parsedOf,
    workflowMetadata := { md with requestParser := run.exec, errors := run.errors } }

/-- Models TravelItineraryWorkflow._execute_activities_planner (the research
and generation phases are abstracted into one attempt outcome; a research
failure raises and is retried exactly like a generation failure). -/
def executeActivitiesPlanner (env : WorkflowEnv)
    (req : RequestParser.CoreTravelRequest) (resp : TravelItineraryResponse) :
    TravelItineraryResponse :=
  let md := { resp.workflowMetadata with currentStage := WorkflowStage.findingPlaces }
  let run := stageLoop (env.plannerAttempt req)
    "ActivitiesPlanner timeout after 180s" "ActivitiesPlanner error: "
    (maxRetries + 1) 0 md.activitiesPlanner md.errors
  { resp with
    itinerary := run.value,
    workflowMetadata := { md with activitiesPlanner := run.exec, errors := run.errors } }

/-- Models TravelItineraryWorkflow._execute_accommodation_suggester. -/
def executeAccommodationSuggester (env : WorkflowEnv)
    (it : ActivitiesPlanner.ItineraryOutput) (resp : TravelItineraryResponse) :
    TravelItineraryResponse :=
  let md := { resp.workflowMetadata with
    currentStage := WorkflowStage.findingAccommodations }
  let run := stageLoop (env.suggesterAttempt it)
    "AccommodationSuggester timeout after 180s" "AccommodationSuggester error: "
    (maxRetries + 1) 0 md.accommodationSuggester md.errors
  { resp with
    accommodations := run.value,
    workflowMetadata := { md with accommodationSuggester := run.exec, errors := run.errors } }

/-- Models TravelItineraryResponse.get_completion_status. -/
def getCompletionStatus (r : TravelItineraryResponse) : String :=
  if isCompleteResponse r then "Complete itinerary generated successfully"
  else if isPartial r then
    "Partial results: " ++ String.intercalate ", "
      ((if r.parsedRequest.isSome then ["request parsing"] else []) ++
       (if r.itinerary.isSome then ["activity planning"] else []) ++
       (if r.accommodations.isSome then ["accommodation suggestions"] else []))
  else "No results generated"

/-- Python str() of the duck-typed total_amount field. -/
def pyValStr (v : RequestParser.PyVal) : String :=
  match v with
  | .str s => s
  | .num q => AccommodationSuggester.ratStr q

/-- Models TravelItineraryWorkflow._assemble_final_response: the summary is
built from whatever fields are populated (the timing line is omitted since
wall-clock durations are not modelled; nothing in the model raises, so the
except branch is unreachable). -/
def assembleFinalResponse (resp : TravelItineraryResponse) :
    TravelItineraryResponse :=
  let md := { resp.workflowMetadata with
    currentStage := WorkflowStage.assemblingResponse }
  let parts1 :=
    match resp.parsedRequest with
    | some req =>
      ["✈️ Destination: " ++ req.destination,
       "📅 Duration: " ++ toString req.duration ++ " days",
       "💰 Budget: " ++ pyValStr req.budget.totalAmount,
       "👥 Travelers: " ++ toString req.travelers.adults ++ " adults" ++
         (if req.travelers.children > 0 then
           ", " ++ toString req.travelers.children ++ " children" else "")]
    | none => []
  let parts2 :=
    match resp.itinerary with
    | some it =>
      ["🗺️ Activities: " ++ toString it.mustVisitPlaces.length ++
        " must-visit places",
       "📋 Itinerary: " ++ toString it.dailyItineraries.length ++ " days planned"]
    | none => []
  let parts3 :=
    match resp.accommodations with
    | some acc =>
      ["🏨 Accommodations: " ++ toString acc.accommodationOptions.length ++
        " options found"]
    | none => []
  let parts4 := ["📊 Status: " ++ getCompletionStatus resp]
  { resp with
    summary := some (String.intercalate "\n" (parts1 ++ parts2 ++ parts3 ++ parts4)),
    workflowMetadata := md }

/-- Models WorkflowMetadata.complete_workflow. -/
def completeWorkflow (md : WorkflowMetadata) : WorkflowMetadata :=
  { md with currentStage := WorkflowStage.completed, overallStatus := "completed" }

/-- Stage 2 of execute_workflow: plan activities only if parsing succeeded
(response.parsed_request is set). -/
def afterPlanner (env : WorkflowEnv) (resp : TravelItineraryResponse) :
    TravelItineraryResponse :=
  match resp.parsedRequest with
  | some req => executeActivitiesPlanner env req resp
  | none => resp

/-- Stage 3 of execute_workflow: find accommodations only if activities
planning succeeded (response.itinerary is set). -/
def afterSuggester (env : WorkflowEnv) (resp : TravelItineraryResponse) :
    TravelItineraryResponse :=
  match resp.itinerary with
  | some it => executeAccommodationSuggester env it resp
  | none => resp

/-- Stage 4 plus the terminal bookkeeping: assemble the final response and
mark the workflow completed. -/
def finalize (resp : TravelItineraryResponse) : TravelItineraryResponse :=
  let resp := assembleFinalResponse resp
  { resp with workflowMetadata := completeWorkflow resp.workflowMetadata }

/-- Models TravelItineraryWorkflow.execute_workflow: the four stages in
source order, stage 2 gated on parsed_request, stage 3 gated on itinerary,
then assembly and complete_workflow (no stage of the model raises, so the
top-level except is unreachable). -/
def executeWorkflow (env : WorkflowEnv) (userInput workflowId : String) :
    TravelItineraryResponse :=
  finalize (afterSuggester env (afterPlanner env (executeRequestParser env
    (createEmptyResponse userInput (createWorkflowMetadata workflowId)))))

end Workflow

namespace Workflow

theorem stageLoopOkFirst {α : Type} (f : Nat → Outcome α) (tm ep : String)
    (v : α) (hf : f 0 = .ok v) (fuel : Nat) (hfuel : 0 < fuel)
    (exec : AgentExecution) (errs : List String) :
    stageLoop f tm ep fuel 0 exec errs =
      ⟨{ exec with status := AgentStatus.completed }, some v, errs⟩ := by
  cases fuel with
  | zero => exact absurd hfuel (lt_irrefl 0)
  | succ fuel =>
    unfold stageLoop
    rw [hf]

theorem stageLoopAllFail {α : Type} (f : Nat → Outcome α) (tm ep : String)
    (hf : ∀ i v, f i ≠ .ok v) :
    ∀ (fuel : Nat), 0 < fuel → ∀ (i : Nat) (exec : AgentExecution)
      (errs : List String),
      (stageLoop f tm ep fuel i exec errs).value = none ∧
      (stageLoop f tm ep fuel i exec errs).exec.status = AgentStatus.failed := by
  intro fuel
  induction fuel with
  | zero => intro h; exact absurd h (lt_irrefl 0)
  | succ fuel ih =>
    intro _ i exec errs
    unfold stageLoop
    cases hfi : f i with
    | ok v => exact absurd hfi (hf i v)
    | timeout =>
      dsimp only
      by_cases hfuel : 0 < fuel
      · rw [if_pos hfuel]
        exact ih hfuel (i + 1) _ _
      · rw [if_neg hfuel]
        exact ⟨rfl, rfl⟩
    | exc m =>
      dsimp only
      by_cases hfuel : 0 < fuel
      · rw [if_pos hfuel]
        exact ih hfuel (i + 1) _ _
      · rw [if_neg hfuel]
        exact ⟨rfl, rfl⟩

theorem stageLoopAllExcEq {α : Type} (f : Nat → Outcome α) (tm ep : String)
    (m : Nat → String) (hf : ∀ i, f i = .exc (m i)) :
    ∀ (fuel i : Nat) (exec : AgentExecution) (errs : List String),
      stageLoop f tm ep (fuel + 1) i exec errs =
        ⟨⟨exec.agentName, AgentStatus.failed, some (ep ++ m (i + fuel)),
           exec.retryCount + fuel⟩,
         none, errs ++ [ep ++ m (i + fuel)]⟩ := by
  intro fuel
  induction fuel with
  | zero =>
    intro i exec errs
    unfold stageLoop
    rw [hf i]
    dsimp only
    rw [if_neg (lt_irrefl 0)]
    rfl
  | succ fuel ih =>
    intro i exec errs
    show stageLoop f tm ep (fuel + 1 + 1) i exec errs = _
    unfold stageLoop
    rw [hf i]
    dsimp only
    rw [if_pos (Nat.succ_pos fuel), ih (i + 1)]
    have e1 : exec.retryCount + 1 + fuel = exec.retryCount + (fuel + 1) := by omega
    have e2 : i + 1 + fuel = i + (fuel + 1) := by omega
    rw [e1, e2]

end Workflow

namespace Workflow

/-- The response state after a first-attempt parser success on a fresh
workflow. -/
def parserOkResponse (input id : String) (p : ParserOk) : TravelItineraryResponse :=
  ⟨some (parsedOf p), none, none,
   ⟨id, WorkflowStage.parsingRequest, "running",
    ⟨"RequestParser", AgentStatus.completed, none, 0⟩,
    initAgentExecution "ActivitiesPlanner",
    initAgentExecution "AccommodationSuggester", [], []⟩,
   none, some input⟩

theorem executeRequestParserOkEmpty (env : WorkflowEnv) (input id : String)
    (p : ParserOk) (h : env.parserAttempt 0 = .ok p) :
    executeRequestParser env
        (createEmptyResponse input (createWorkflowMetadata id)) =
      parserOkResponse input id p := by
  unfold executeRequestParser createEmptyResponse createWorkflowMetadata
    parserOkResponse
  dsimp only
  rw [stageLoopOkFirst env.parserAttempt "RequestParser timeout after 180s"
    "RequestParser error: " p h (maxRetries + 1) (by norm_num)]
  rfl

theorem executeActivitiesPlannerOk (env : WorkflowEnv)
    (req : RequestParser.CoreTravelRequest) (resp : TravelItineraryResponse)
    (it : ActivitiesPlanner.ItineraryOutput)
    (h : env.plannerAttempt req 0 = .ok it) :
    executeActivitiesPlanner env req resp =
      ⟨resp.parsedRequest, some it, resp.accommodations,
       ⟨resp.workflowMetadata.workflowId, WorkflowStage.findingPlaces,
        resp.workflowMetadata.overallStatus,
        resp.workflowMetadata.requestParser,
        ⟨resp.workflowMetadata.activitiesPlanner.agentName,
         AgentStatus.completed,
         resp.workflowMetadata.activitiesPlanner.errorMessage,
         resp.workflowMetadata.activitiesPlanner.retryCount⟩,
        resp.workflowMetadata.accommodationSuggester,
        resp.workflowMetadata.errors, resp.workflowMetadata.warnings⟩,
       resp.summary, resp.userInput⟩ := by
  unfold executeActivitiesPlanner
  dsimp only
  rw [stageLoopOkFirst (env.plannerAttempt req)
    "ActivitiesPlanner timeout after 180s" "ActivitiesPlanner error: "
    it h (maxRetries + 1) (by norm_num)]

theorem executeAccommodationSuggesterAllExc (env : WorkflowEnv)
    (it : ActivitiesPlanner.ItineraryOutput) (resp : TravelItineraryResponse)
    (m : Nat → String) (h : ∀ i, env.suggesterAttempt it i = .exc (m i)) :
    executeAccommodationSuggester env it resp =
      ⟨resp.parsedRequest, resp.itinerary, none,
       ⟨resp.workflowMetadata.workflowId, WorkflowStage.findingAccommodations,
        resp.workflowMetadata.overallStatus,
        resp.workflowMetadata.requestParser,
        resp.workflowMetadata.activitiesPlanner,
        ⟨resp.workflowMetadata.accommodationSuggester.agentName,
         AgentStatus.failed,
         some ("AccommodationSuggester error: " ++ m 2),
         resp.workflowMetadata.accommodationSuggester.retryCount + 2⟩,
        resp.workflowMetadata.errors ++ ["AccommodationSuggester error: " ++ m 2],
        resp.workflowMetadata.warnings⟩,
       resp.summary, resp.userInput⟩ := by
  unfold executeAccommodationSuggester maxRetries
  dsimp only
  rw [stageLoopAllExcEq (env.suggesterAttempt it)
    "AccommodationSuggester timeout after 180s" "AccommodationSuggester error: "
    m h 2 0]

theorem afterPlannerSome (env : WorkflowEnv) (resp : TravelItineraryResponse)
    (req : RequestParser.CoreTravelRequest) (h : resp.parsedRequest = some req) :
    afterPlanner env resp = executeActivitiesPlanner env req resp := by
  unfold afterPlanner
  rw [h]

theorem afterPlannerNone (env : WorkflowEnv) (resp : TravelItineraryResponse)
    (h : resp.parsedRequest = none) : afterPlanner env resp = resp := by
  unfold afterPlanner
  rw [h]

theorem afterSuggesterSome (env : WorkflowEnv) (resp : TravelItineraryResponse)
    (it : ActivitiesPlanner.ItineraryOutput) (h : resp.itinerary = some it) :
    afterSuggester env resp = executeAccommodationSuggester env it resp := by
  unfold afterSuggester
  rw [h]

theorem afterSuggesterNone (env : WorkflowEnv) (resp : TravelItineraryResponse)
    (h : resp.itinerary = none) : afterSuggester env resp = resp := by
  unfold afterSuggester
  rw [h]

end Workflow

namespace Workflow

theorem afterPlannerPreserves (env : WorkflowEnv) (resp : TravelItineraryResponse) :
    (afterPlanner env resp).parsedRequest = resp.parsedRequest ∧
    (afterPlanner env resp).workflowMetadata.requestParser =
      resp.workflowMetadata.requestParser := by
  unfold afterPlanner
  split <;> exact ⟨rfl, rfl⟩

theorem afterSuggesterPreserves (env : WorkflowEnv) (resp : TravelItineraryResponse) :
    (afterSuggester env resp).parsedRequest = resp.parsedRequest ∧
    (afterSuggester env resp).itinerary = resp.itinerary ∧
    (afterSuggester env resp).workflowMetadata.requestParser =
      resp.workflowMetadata.requestParser := by
  unfold afterSuggester
  split <;> exact ⟨rfl, rfl, rfl⟩

theorem finalizePreserves (resp : TravelItineraryResponse) :
    (finalize resp).parsedRequest = resp.parsedRequest ∧
    (finalize resp).itinerary = resp.itinerary ∧
    (finalize resp).workflowMetadata.requestParser =
      resp.workflowMetadata.requestParser :=
  ⟨rfl, rfl, rfl⟩

end Workflow

/-- C1 (corrected): a stage that fails after exhausting its retries leaves
all downstream agent stages unexecuted (status pending, outputs unset) while
execute_workflow still returns the partially assembled response; in the
scenario where parsing and activities planning succeed and the accommodation
stage raises on every retry attempt, the final response has the itinerary
populated, accommodations left unset (None, not a canned fallback),
workflow_metadata.has_errors() true and is_partial() true. -/
theorem claimC1partialFailureAmended :
    (∀ (env : Workflow.WorkflowEnv) (input id : String),
      (∀ i v, env.parserAttempt i ≠ Workflow.Outcome.ok v) →
      (Workflow.executeWorkflow env input id).parsedRequest = none ∧
      (Workflow.executeWorkflow env input id).itinerary = none ∧
      (Workflow.executeWorkflow env input id).accommodations = none ∧
      (Workflow.executeWorkflow env input id).workflowMetadata.requestParser.status = Workflow.AgentStatus.failed ∧
      (Workflow.executeWorkflow env input id).workflowMetadata.activitiesPlanner.status = Workflow.AgentStatus.pending ∧
      (Workflow.executeWorkflow env input id).workflowMetadata.accommodationSuggester.status = Workflow.AgentStatus.pending) ∧
    (∀ (env : Workflow.WorkflowEnv) (input id : String) (p : Workflow.ParserOk),
      env.parserAttempt 0 = Workflow.Outcome.ok p →
      (∀ i v, env.plannerAttempt (Workflow.parsedOf p) i ≠ Workflow.Outcome.ok v) →
      (Workflow.executeWorkflow env input id).parsedRequest = some (Workflow.parsedOf p) ∧
      (Workflow.executeWorkflow env input id).itinerary = none ∧
      (Workflow.executeWorkflow env input id).accommodations = none ∧
      (Workflow.executeWorkflow env input id).workflowMetadata.activitiesPlanner.status = Workflow.AgentStatus.failed ∧
      (Workflow.executeWorkflow env input id).workflowMetadata.accommodationSuggester.status = Workflow.AgentStatus.pending) ∧
    (∀ (env : Workflow.WorkflowEnv) (input id : String) (p : Workflow.ParserOk)
      (it : ActivitiesPlanner.ItineraryOutput) (m : Nat → String),
      env.parserAttempt 0 = Workflow.Outcome.ok p →
      env.plannerAttempt (Workflow.parsedOf p) 0 = Workflow.Outcome.ok it →
      (∀ i, env.suggesterAttempt it i = Workflow.Outcome.exc (m i)) →
      (Workflow.executeWorkflow env input id).itinerary = some it ∧
      (Workflow.executeWorkflow env input id).accommodations = none ∧
      Workflow.hasErrors (Workflow.executeWorkflow env input id).workflowMetadata = true ∧
      Workflow.isPartial (Workflow.executeWorkflow env input id) = true ∧
      (Workflow.executeWorkflow env input id).workflowMetadata.accommodationSuggester.status = Workflow.AgentStatus.failed) := by
  refine ⟨?_, ?_, ?_⟩
  · intro env input id hpf
    have hfail := Workflow.stageLoopAllFail env.parserAttempt
      "RequestParser timeout after 180s" "RequestParser error: " hpf
      (Workflow.maxRetries + 1) (by norm_num) 0
      (Workflow.initAgentExecution "RequestParser") []
    have h1 : (Workflow.executeRequestParser env (Workflow.createEmptyResponse
        input (Workflow.createWorkflowMetadata id))).parsedRequest = none := by
      unfold Workflow.executeRequestParser Workflow.createEmptyResponse
        Workflow.createWorkflowMetadata
      dsimp only
      rw [hfail.1]
      rfl
    have h2 : (Workflow.executeRequestParser env (Workflow.createEmptyResponse
        input (Workflow.createWorkflowMetadata id))).itinerary = none := rfl
    have hw : Workflow.executeWorkflow env input id =
        Workflow.finalize (Workflow.executeRequestParser env
          (Workflow.createEmptyResponse input (Workflow.createWorkflowMetadata id))) := by
      unfold Workflow.executeWorkflow
      rw [Workflow.afterPlannerNone env _ h1, Workflow.afterSuggesterNone env _ h2]
    rw [hw]
    exact ⟨h1, h2, rfl, hfail.2, rfl, rfl⟩
  · intro env input id p hp hplf
    have e1 := Workflow.executeRequestParserOkEmpty env input id p hp
    have hfail := Workflow.stageLoopAllFail (env.plannerAttempt (Workflow.parsedOf p))
      "ActivitiesPlanner timeout after 180s" "ActivitiesPlanner error: " hplf
      (Workflow.maxRetries + 1) (by norm_num) 0
      ((Workflow.parserOkResponse input id p).workflowMetadata.activitiesPlanner)
      ((Workflow.parserOkResponse input id p).workflowMetadata.errors)
    have h2 : (Workflow.executeActivitiesPlanner env (Workflow.parsedOf p)
        (Workflow.parserOkResponse input id p)).itinerary = none := by
      unfold Workflow.executeActivitiesPlanner
      dsimp only
      rw [hfail.1]
    have hw : Workflow.executeWorkflow env input id =
        Workflow.finalize (Workflow.executeActivitiesPlanner env
          (Workflow.parsedOf p) (Workflow.parserOkResponse input id p)) := by
      unfold Workflow.executeWorkflow
      rw [e1, Workflow.afterPlannerSome env _ _ rfl,
        Workflow.afterSuggesterNone env _ h2]
    rw [hw]
    exact ⟨rfl, h2, rfl, hfail.2, rfl⟩
  · intro env input id p it m hp hpl hs
    have e1 := Workflow.executeRequestParserOkEmpty env input id p hp
    have e2 := Workflow.executeActivitiesPlannerOk env (Workflow.parsedOf p)
      (Workflow.parserOkResponse input id p) it hpl
    have hw : Workflow.executeWorkflow env input id =
        Workflow.finalize (Workflow.executeAccommodationSuggester env it
          (Workflow.executeActivitiesPlanner env (Workflow.parsedOf p)
            (Workflow.parserOkResponse input id p))) := by
      unfold Workflow.executeWorkflow
      rw [e1, Workflow.afterPlannerSome env _ _ rfl]
      rw [Workflow.afterSuggesterSome env _ it (by rw [e2])]
    rw [hw, Workflow.executeAccommodationSuggesterAllExc env it _ m hs, e2]
    exact ⟨rfl, rfl, rfl, rfl, rfl⟩

/-- The concrete environment of the C1 scenario: parsing and planning succeed
on the first attempt, the accommodation stage raises on every attempt. -/
def cexEnvC1 : Workflow.WorkflowEnv :=
  ⟨fun _ => Workflow.Outcome.ok ⟨true, Workflow.partialRequestDefault⟩,
   fun _ _ => Workflow.Outcome.ok mumbaiItinerary,
   fun _ _ => Workflow.Outcome.exc "forced failure"⟩

/-- C1 counterexample: with the accommodation stage raising on every retry
attempt, the returned response's accommodations field is None — not the
suggester's canned fallback output — which also contradicts the claimed
conjunction, since a populated fallback would make is_partial() false. -/
theorem claimC1accommodationFallbackCounterexample :
    (Workflow.executeWorkflow cexEnvC1 "plan a trip" "wf1").itinerary =
      some mumbaiItinerary ∧
    (Workflow.executeWorkflow cexEnvC1 "plan a trip" "wf1").accommodations =
      none ∧
    Workflow.hasErrors
      (Workflow.executeWorkflow cexEnvC1 "plan a trip" "wf1").workflowMetadata =
      true ∧
    Workflow.isPartial (Workflow.executeWorkflow cexEnvC1 "plan a trip" "wf1") =
      true := by
  refine ⟨rfl, rfl, rfl, rfl⟩

/-- Witness for C1 amended at the concrete forced-failure environment. -/
theorem claimC1partialFailureAmendedWitness :
    (Workflow.executeWorkflow cexEnvC1 "plan a trip" "wf1").accommodations =
      none ∧
    Workflow.isPartial (Workflow.executeWorkflow cexEnvC1 "plan a trip" "wf1") =
      true ∧
    (Workflow.executeWorkflow cexEnvC1 "plan a trip"
        "wf1").workflowMetadata.accommodationSuggester.status =
      Workflow.AgentStatus.failed := by
  have h := claimC1partialFailureAmended.2.2 cexEnvC1 "plan a trip" "wf1"
    ⟨true, Workflow.partialRequestDefault⟩ mumbaiItinerary
    (fun _ => "forced failure") rfl rfl (fun _ => rfl)
  exact ⟨h.2.1, h.2.2.2.1, h.2.2.2.2⟩

/-- A converted request distinct from the hard-coded default, to exhibit that
the default, not the conversation's own data, is used on the incomplete
path. -/
def parisConvertedRequest : RequestParser.CoreTravelRequest :=
  ⟨"Paris, France", 5, ⟨1, 0, 1⟩,
   ⟨RequestParser.PyVal.str "1000 EUR", "EUR", none⟩⟩

/-- The concrete environment of the C9 witness: the parser returns an
incomplete response on the first attempt. -/
def cexEnvC9 : Workflow.WorkflowEnv :=
  ⟨fun _ => Workflow.Outcome.ok ⟨false, parisConvertedRequest⟩,
   fun _ _ => Workflow.Outcome.ok mumbaiItinerary,
   fun _ _ => Workflow.Outcome.exc "unused"⟩

/-- C9: when the RequestParser stage returns a response whose is_complete
flag is false, the orchestrator populates parsed_request with the hard-coded
default request (Mumbai, 3 days, 2 adults and 0 children, "25000 INR"
mid-range), marks the parsing stage completed, and the planner stage runs
against that fixed request. -/
theorem claimC9incompleteParserDefaultRequest :
    ∀ (env : Workflow.WorkflowEnv) (input id : String) (p : Workflow.ParserOk),
      env.parserAttempt 0 = Workflow.Outcome.ok p → p.isComplete = false →
      (Workflow.executeWorkflow env input id).parsedRequest =
        some Workflow.partialRequestDefault ∧
      (Workflow.executeWorkflow env input id).workflowMetadata.requestParser.status =
        Workflow.AgentStatus.completed ∧
      (∀ it, env.plannerAttempt Workflow.partialRequestDefault 0 =
          Workflow.Outcome.ok it →
        (Workflow.executeWorkflow env input id).itinerary = some it) := by
  intro env input id p hp hic
  have hpd : Workflow.parsedOf p = Workflow.partialRequestDefault := by
    unfold Workflow.parsedOf
    rw [hic]
    rfl
  have e1 := Workflow.executeRequestParserOkEmpty env input id p hp
  refine ⟨?_, ?_, ?_⟩
  · have h : (Workflow.executeWorkflow env input id).parsedRequest =
        some (Workflow.parsedOf p) := by
      unfold Workflow.executeWorkflow
      rw [(Workflow.finalizePreserves _).1,
        (Workflow.afterSuggesterPreserves env _).1,
        (Workflow.afterPlannerPreserves env _).1, e1]
      rfl
    rw [h, hpd]
  · have h : (Workflow.executeWorkflow env input id).workflowMetadata.requestParser =
        (Workflow.parserOkResponse input id p).workflowMetadata.requestParser := by
      unfold Workflow.executeWorkflow
      rw [(Workflow.finalizePreserves _).2.2,
        (Workflow.afterSuggesterPreserves env _).2.2,
        (Workflow.afterPlannerPreserves env _).2, e1]
    rw [h]
    rfl
  · intro it hit
    unfold Workflow.executeWorkflow
    rw [e1, Workflow.afterPlannerSome env _ _ rfl, hpd,
      Workflow.executeActivitiesPlannerOk env Workflow.partialRequestDefault _ it hit,
      (Workflow.finalizePreserves _).2.1,
      (Workflow.afterSuggesterPreserves env _).2.1]

/-- Witness for C9 at a concrete incomplete-parser environment whose own
converted request is Paris, showing the Mumbai default is what flows
downstream. -/
theorem claimC9incompleteParserDefaultRequestWitness :
    (Workflow.executeWorkflow cexEnvC9 "plan" "wf2").parsedRequest =
      some Workflow.partialRequestDefault ∧
    (Workflow.executeWorkflow cexEnvC9 "plan"
        "wf2").workflowMetadata.requestParser.status =
      Workflow.AgentStatus.completed ∧
    (Workflow.executeWorkflow cexEnvC9 "plan" "wf2").itinerary =
      some mumbaiItinerary ∧
    Workflow.partialRequestDefault ≠ parisConvertedRequest := by
  have h := claimC9incompleteParserDefaultRequest cexEnvC9 "plan" "wf2"
    ⟨false, parisConvertedRequest⟩ rfl rfl
  exact ⟨h.1, h.2.1, h.2.2 mumbaiItinerary rfl, by decide⟩
